import Mathlib

/-!
Verification development for the spot-cluster recovery strategy module
(sky/spot/recovery_strategy.py).

The module is a control-flow layer over external collaborators (provisioning,
cluster registry, job runtime, signal delivery).  We embed it shallowly:
each external call's outcome is drawn from an environment supplied as an
argument, the loops are given explicit fuel (a `while True` loop that never
hits a terminating branch yields `outOfFuel` for every fuel), and every
observable action of the code (signal check, provisioning call with the
current blocklists, backoff sleep, fixed-gap sleep) is recorded in a trace.
-/

namespace SpotRecovery

/-- Cluster lifecycle status (global_user_state.ClusterStatus). -/
inductive ClusterStatus
  | INIT
  | UP
  | STOPPED
deriving DecidableEq, Repr

/-- Job status (job_lib.JobStatus); only the pending-like statuses matter
to the polling loop's guard. -/
inductive JobStatus
  | INIT
  | PENDING
  | RUNNING
  | SUCCEEDED
  | FAILED
deriving DecidableEq, Repr

/-- Modelled from the spec: `common_utils.Backoff` is not part of this
module's source; the spec (section 4.1) says `current_backoff()` returns a
delay that starts at a configured base and increases multiplicatively on
successive calls, never zero or negative.  We model it as a current value,
at least 1, that doubles on every draw. -/
structure Backoff where
  currentValue : Nat
deriving DecidableEq, Repr

/-- Construct the backoff at its configured base (never below 1). -/
def Backoff.start (base : Nat) : Backoff := ⟨max 1 base⟩

/-- Draw the current delay and advance the internal progression. -/
def Backoff.current_backoff (b : Backoff) : Nat × Backoff :=
  (b.currentValue, ⟨b.currentValue * 2⟩)

/-- StrategyExecutor.RETRY_INIT_GAP_SECONDS. -/
def RETRY_INIT_GAP_SECONDS : Nat := 60

/-- Modelled from the spec: `spot_utils.MAX_JOB_CHECKING_RETRY` is not part
of this module's source; the spec (section 4.3, step 4) says the job-status
polling loop runs a bounded, fixed number of iterations.  The concrete value
is irrelevant to every claim; we fix it at 10. -/
def MAX_JOB_CHECKING_RETRY : Nat := 10

/-- Outcomes of the external calls made by one iteration of the inner
job-status polling loop: `refresh_cluster_status_handle` (may raise),
`get_job_status` (may raise, may report no status yet) and
`get_job_timestamp` (may raise). -/
structure PollStep where
  refresh : Except Unit ClusterStatus
  jobStatus : Except Unit (Option JobStatus)
  timestamp : Except Unit Nat

/-- A provisioning failure raised by `sky.launch`; `exhausted` records
whether its message contains the magic substring
'Failed to provision all possible launchable resources'. -/
structure LaunchErr where
  exhausted : Bool
deriving DecidableEq, Repr

/-- Outcomes of the external calls of one outer `_launch` iteration:
whether `signal_handler()` raises, the outcome of `sky.launch`, and the
outcomes of the inner polling loop's calls. -/
structure AttemptEnv where
  signalRaised : Bool
  launchOutcome : Except LaunchErr Unit
  polls : Nat → PollStep

/-- How the inner job-status polling loop of `_launch` exits. -/
inductive InnerResult
  | success (t : Nat)
  | retryLaunch
  | exhausted
deriving DecidableEq, Repr

/-- The inner polling loop of `_launch` (lines 192-228): while the job
status is unknown and fewer than MAX_JOB_CHECKING_RETRY iterations have run,
refresh the cluster status (an exception or a non-UP status marks "needs
relaunch"), then query the job status (an exception marks "needs relaunch";
a known status fetches and returns the start timestamp, an exception there
also marking "needs relaunch"). -/
def pollAux (polls : Nat → PollStep) : Nat → Nat → InnerResult
  | _, 0 => .exhausted
  | j, r + 1 =>
    let p := polls j
    match p.refresh with
    | .error _ => .retryLaunch
    | .ok st =>
      if st ≠ ClusterStatus.UP then .retryLaunch
      else
        match p.jobStatus with
        | .error _ => .retryLaunch
        | .ok (some _) =>
          match p.timestamp with
          | .error _ => .retryLaunch
          | .ok t => .success t
        | .ok none => pollAux polls (j + 1) r

/-- Observable actions of the executor, in program order. -/
inductive Event
  | signalCheck
  | provisionCall (blockedRegions blockedZones : Finset String)
  | backoffSleep (gap : Nat)
  | fixedSleep (gap : Nat)
deriving DecidableEq

/-- The mutable state threaded through `_launch`: the executor's blocklists,
the backoff object local to the call, and the `retry_cnt` counter. -/
structure LaunchState where
  blockedRegions : Finset String
  blockedZones : Finset String
  backoff : Backoff
  retryCnt : Nat
deriving DecidableEq

/-- How `_launch` exits: a `return` (with an optional timestamp), a raised
`ResourcesUnavailableError`, a propagated signal exception, or fuel
exhaustion (the loop would keep running). -/
inductive LaunchResult
  | returned (t : Option Nat)
  | raisedResourcesUnavailable
  | raisedSignal
  | outOfFuel
deriving DecidableEq, Repr

structure LaunchOutput where
  result : LaunchResult
  state : LaunchState
  trace : List Event
deriving DecidableEq

/-- The blocklist clearing of lines 161-165: when the failure message
indicates total exhaustion, both blocklists are cleared. -/
def clearedOnExhaust (e : LaunchErr) (s : LaunchState) : LaunchState :=
  if e.exhausted then { s with blockedRegions := ∅, blockedZones := ∅ } else s

/-- The giving-up test of line 167: `max_retry is not None and
retry_cnt >= max_retry`. -/
def hitMaxRetry (maxRetry : Option Nat) (cnt : Nat) : Bool :=
  match maxRetry with
  | some m => decide (cnt ≥ m)
  | none => false

/-- The outer retry loop of `_launch` (lines 135-238).  Per iteration:
increment `retry_cnt`, run the signal handler (a raised signal propagates),
call `sky.launch` with the current blocklists; on failure clear both
blocklists when the message indicates total exhaustion, then either give up
(raise or return None once `retry_cnt` reaches a non-null `max_retry`) or
sleep the backoff gap and retry; on success run the inner polling loop and
either return its timestamp, return None when it polled out, or sleep the
backoff gap and retry. -/
def launchAux (maxRetry : Option Nat) (raiseOnFailure : Bool) (env : Nat → AttemptEnv) :
    Nat → Nat → LaunchState → LaunchOutput
  | _, 0, s => ⟨.outOfFuel, s, []⟩
  | i, fuel + 1, s =>
    let a := env i
    let s1 : LaunchState := { s with retryCnt := s.retryCnt + 1 }
    if a.signalRaised then
      ⟨.raisedSignal, s1, [.signalCheck]⟩
    else
      match a.launchOutcome with
      | .error e =>
        let s2 : LaunchState := clearedOnExhaust e s1
        if hitMaxRetry maxRetry s2.retryCnt then
          if raiseOnFailure then
            ⟨.raisedResourcesUnavailable, s2,
              [.signalCheck, .provisionCall s.blockedRegions s.blockedZones]⟩
          else
            ⟨.returned none, s2,
              [.signalCheck, .provisionCall s.blockedRegions s.blockedZones]⟩
        else
          let gb := s2.backoff.current_backoff
          let rest := launchAux maxRetry raiseOnFailure env (i + 1) fuel
            { s2 with backoff := gb.2 }
          ⟨rest.result, rest.state,
            [.signalCheck, .provisionCall s.blockedRegions s.blockedZones,
              .backoffSleep gb.1] ++ rest.trace⟩
      | .ok _ =>
        match pollAux a.polls 0 MAX_JOB_CHECKING_RETRY with
        | .success t =>
          ⟨.returned (some t), s1,
            [.signalCheck, .provisionCall s.blockedRegions s.blockedZones]⟩
        | .exhausted =>
          ⟨.returned none, s1,
            [.signalCheck, .provisionCall s.blockedRegions s.blockedZones]⟩
        | .retryLaunch =>
          let gb := s1.backoff.current_backoff
          let rest := launchAux maxRetry raiseOnFailure env (i + 1) fuel
            { s1 with backoff := gb.2 }
          ⟨rest.result, rest.state,
            [.signalCheck, .provisionCall s.blockedRegions s.blockedZones,
              .backoffSleep gb.1] ++ rest.trace⟩

/-- StrategyExecutor._launch (line 127): the loop above started with a fresh
Backoff at RETRY_INIT_GAP_SECONDS and `retry_cnt = 0`.  Defaults in the
source are `max_retry=3, raise_on_failure=True`. -/
def _launch (maxRetry : Option Nat) (raiseOnFailure : Bool) (env : Nat → AttemptEnv)
    (blockedRegions blockedZones : Finset String) (fuel : Nat) : LaunchOutput :=
  launchAux maxRetry raiseOnFailure env 0 fuel
    ⟨blockedRegions, blockedZones, Backoff.start RETRY_INIT_GAP_SECONDS, 0⟩

/-- StrategyExecutor.launch (lines 86-96): unbounded retry when
`retry_until_up`, else the `_launch` defaults. -/
def launch (retry_until_up : Bool) (env : Nat → AttemptEnv)
    (blockedRegions blockedZones : Finset String) (fuel : Nat) : LaunchOutput :=
  if retry_until_up then _launch none true env blockedRegions blockedZones fuel
  else _launch (some 3) true env blockedRegions blockedZones fuel

/-- A resource specification (sky.Resources), with the fields this module
reads: placement identity and the recovery-policy name.  `copy` with the
recovery-policy cleared is `\x7b r with spot_recovery := none \x7d`. -/
structure Resources where
  cloud : String
  region : String
  zone : String
  spot_recovery : Option String
deriving DecidableEq, Repr

/-- A cluster handle (backends.ResourceHandle): this module only reads
`launched_resources`. -/
structure Handle where
  launched_resources : Resources
deriving DecidableEq, Repr

/-- The retry loop of terminate_cluster (lines 114-125): call teardown
(outcome of attempt `n` given by `teardown n`); on success return; otherwise
increment `retry_cnt` and raise RuntimeError once it reaches `max_retry`.
Also counts the teardown calls made. -/
def terminateAux (teardown : Nat → Bool) (maxRetry : Nat) (retryCnt : Nat) :
    Except Unit Unit × Nat :=
  if teardown retryCnt then (.ok (), retryCnt + 1)
  else if h : retryCnt + 1 ≥ maxRetry then (.error (), retryCnt + 1)
  else terminateAux teardown maxRetry (retryCnt + 1)
termination_by maxRetry - retryCnt
decreasing_by omega

/-- StrategyExecutor.terminate_cluster (lines 108-125): a missing handle is
an immediate no-op success; otherwise the teardown retry loop runs.  The
second component counts teardown calls. -/
def terminate_cluster (handle : Option Handle) (teardown : Nat → Bool)
    (maxRetry : Nat) : Except Unit Unit × Nat :=
  match handle with
  | none => (.ok (), 0)
  | some _ => terminateAux teardown maxRetry 0

/-- Outcomes of the external calls of one iteration of a recover() loop:
the registry lookup and teardown outcomes used by terminate_cluster, the
environment and fuel for the inner `_launch`, and the registry lookup redone
after a failed `_launch`. -/
structure RecoverIterEnv where
  terminateHandle : Option Handle
  teardown : Nat → Bool
  launchEnv : Nat → AttemptEnv
  launchFuel : Nat
  regetHandle : Option Handle

/-- How recover() exits: success, an unhandled null-handle dereference
(AttributeError), a RuntimeError propagated from terminate_cluster, a raised
ResourcesUnavailableError, a propagated signal exception, or fuel
exhaustion. -/
inductive RecoverResult
  | ok (t : Nat)
  | nullDeref
  | terminateFailed
  | raisedResourcesUnavailable
  | raisedSignal
  | outOfFuel
deriving DecidableEq, Repr

structure RecoverOutput where
  result : RecoverResult
  blockedRegions : Finset String
  blockedZones : Finset String
  trace : List Event
deriving DecidableEq

/-- After a failed relaunch the handle is refetched from the registry and,
when it exists, its zone is blocked (lines 309-312, 386-390). -/
def regetBlockZone (hd : Option Handle) (zones : Finset String) : Finset String :=
  match hd with
  | some h2 => insert h2.launched_resources.zone zones
  | none => zones

/-- After a failed relaunch the CrossRegion variant additionally blocks the
refetched handle's region (line 389). -/
def regetBlockRegion (hd : Option Handle) (regions : Finset String) : Finset String :=
  match hd with
  | some h2 => insert h2.launched_resources.region regions
  | none => regions

/-- The retry loop of FailoverStrategyExecutor.recover (lines 271-329).
Each iteration rereads `handle.launched_resources` (lines 279-280, an
unhandled dereference when the handle was refetched as null), terminates the
unhealthy cluster (a RuntimeError propagates), and calls
`_launch(max_retry=3, raise_on_failure=False)`.  A null launch result
refetches the handle, blocks its zone when present, and either sleeps
RETRY_INIT_GAP_SECONDS and loops (`retry_until_up`) or raises
ResourcesUnavailableError. -/
def FailoverStrategyExecutor.recoverLoop (retry_until_up : Bool)
    (iters : Nat → RecoverIterEnv) :
    Option Handle → Nat → Finset String → Finset String → Nat → RecoverOutput
  | _, _, regions, zones, 0 => ⟨.outOfFuel, regions, zones, []⟩
  | hd, k, regions, zones, fuel + 1 =>
    match hd with
    | none => ⟨.nullDeref, regions, zones, []⟩
    | some _ =>
      match terminate_cluster (iters k).terminateHandle (iters k).teardown 3 with
      | (.error _, _) => ⟨.terminateFailed, regions, zones, []⟩
      | (.ok _, _) =>
        let lo := _launch (some 3) false (iters k).launchEnv regions zones
          (iters k).launchFuel
        match lo.result with
        | .returned (some t) =>
          ⟨.ok t, lo.state.blockedRegions, lo.state.blockedZones, lo.trace⟩
        | .returned none =>
          if retry_until_up then
            let rest := FailoverStrategyExecutor.recoverLoop retry_until_up iters
              (iters k).regetHandle (k + 1) lo.state.blockedRegions
              (regetBlockZone (iters k).regetHandle lo.state.blockedZones) fuel
            ⟨rest.result, rest.blockedRegions, rest.blockedZones,
              lo.trace ++ [.fixedSleep RETRY_INIT_GAP_SECONDS] ++ rest.trace⟩
          else
            ⟨.raisedResourcesUnavailable, lo.state.blockedRegions,
              regetBlockZone (iters k).regetHandle lo.state.blockedZones, lo.trace⟩
        | .raisedSignal =>
          ⟨.raisedSignal, lo.state.blockedRegions, lo.state.blockedZones, lo.trace⟩
        | .raisedResourcesUnavailable =>
          ⟨.raisedResourcesUnavailable, lo.state.blockedRegions,
            lo.state.blockedZones, lo.trace⟩
        | .outOfFuel =>
          ⟨.outOfFuel, lo.state.blockedRegions, lo.state.blockedZones, lo.trace⟩

/-- FailoverStrategyExecutor.recover (lines 246-329): best-effort job
cancellation (a CommandError is swallowed either way, so the outcome
`cancelRaisesCommandError` does not influence control flow), an unhandled
dereference of a null handle at `handle.launched_resources.zone` (line 264),
blocking of the preempted zone, then the retry loop. -/
def FailoverStrategyExecutor.recover (retry_until_up : Bool) (handle : Option Handle)
    (_cancelRaisesCommandError : Bool) (iters : Nat → RecoverIterEnv)
    (regions zones : Finset String) (fuel : Nat) : RecoverOutput :=
  match handle with
  | none => ⟨.nullDeref, regions, zones, []⟩
  | some h =>
    FailoverStrategyExecutor.recoverLoop retry_until_up iters (some h) 0
      regions (insert h.launched_resources.zone zones) fuel

/-- The retry loop of CrossRegion.recover (lines 368-404): terminate the
unhealthy cluster (a RuntimeError propagates) and call
`_launch(max_retry=3, raise_on_failure=False)`.  A null launch result
refetches the handle, blocks its region and zone when present, and either
sleeps RETRY_INIT_GAP_SECONDS and loops (`retry_until_up`) or raises
ResourcesUnavailableError. -/
def CrossRegion.recoverLoop (retry_until_up : Bool) (iters : Nat → RecoverIterEnv) :
    Nat → Finset String → Finset String → Nat → RecoverOutput
  | _, regions, zones, 0 => ⟨.outOfFuel, regions, zones, []⟩
  | k, regions, zones, fuel + 1 =>
    match terminate_cluster (iters k).terminateHandle (iters k).teardown 3 with
    | (.error _, _) => ⟨.terminateFailed, regions, zones, []⟩
    | (.ok _, _) =>
      let lo := _launch (some 3) false (iters k).launchEnv regions zones
        (iters k).launchFuel
      match lo.result with
      | .returned (some t) =>
        ⟨.ok t, lo.state.blockedRegions, lo.state.blockedZones, lo.trace⟩
      | .returned none =>
        if retry_until_up then
          let rest := CrossRegion.recoverLoop retry_until_up iters (k + 1)
            (regetBlockRegion (iters k).regetHandle lo.state.blockedRegions)
            (regetBlockZone (iters k).regetHandle lo.state.blockedZones) fuel
          ⟨rest.result, rest.blockedRegions, rest.blockedZones,
            lo.trace ++ [.fixedSleep RETRY_INIT_GAP_SECONDS] ++ rest.trace⟩
        else
          ⟨.raisedResourcesUnavailable,
            regetBlockRegion (iters k).regetHandle lo.state.blockedRegions,
            regetBlockZone (iters k).regetHandle lo.state.blockedZones, lo.trace⟩
      | .raisedSignal =>
        ⟨.raisedSignal, lo.state.blockedRegions, lo.state.blockedZones, lo.trace⟩
      | .raisedResourcesUnavailable =>
        ⟨.raisedResourcesUnavailable, lo.state.blockedRegions,
          lo.state.blockedZones, lo.trace⟩
      | .outOfFuel =>
        ⟨.outOfFuel, lo.state.blockedRegions, lo.state.blockedZones, lo.trace⟩

/-- CrossRegion.recover (lines 336-404): best-effort job cancellation (a
CommandError is swallowed), an unhandled dereference of a null handle at
`handle.launched_resources.zone` (line 354), blocking of the preempted zone,
additionally blocking the whole region when the _CROSS_REGION environment
flag is set (`crossRegionFlagSet`, lines 358-361), then the retry loop. -/
def CrossRegion.recover (retry_until_up : Bool) (crossRegionFlagSet : Bool)
    (handle : Option Handle) (_cancelRaisesCommandError : Bool)
    (iters : Nat → RecoverIterEnv) (regions zones : Finset String)
    (fuel : Nat) : RecoverOutput :=
  match handle with
  | none => ⟨.nullDeref, regions, zones, []⟩
  | some h =>
    CrossRegion.recoverLoop retry_until_up iters 0
      (if crossRegionFlagSet then insert h.launched_resources.region regions
        else regions)
      (insert h.launched_resources.zone zones) fuel

/-- A task (task_lib.Task), with the field the factory reads. -/
structure Task where
  resources : List Resources
deriving DecidableEq, Repr

/-- The two registered strategy classes. -/
inductive StrategyTag
  | FAILOVER
  | CROSS_REGION
deriving DecidableEq, Repr

/-- The strategy registry populated by __init_subclass__ (lines 59-65,
241, 332). -/
def SPOT_STRATEGIES : List (String × StrategyTag) :=
  [("FAILOVER", StrategyTag.FAILOVER), ("CROSS_REGION", StrategyTag.CROSS_REGION)]

/-- The single default strategy name (line 241, `default=True`). -/
def SPOT_DEFAULT_STRATEGY : Option String := some "FAILOVER"

/-- Failures of the factory: a failed assert, or an unregistered name. -/
inductive MakeErr
  | assertionError
  | keyError
deriving DecidableEq, Repr

/-- StrategyExecutor.make (lines 67-84): assert exactly one resource spec;
assert its recovery-policy name is declared; replace the task's resources
with a copy whose recovery-policy field is cleared; instantiate the strategy
class registered under the name.  Returns the mutated task together with
the constructed strategy's tag. -/
def make (task : Task) : Except MakeErr (Task × StrategyTag) :=
  match task.resources with
  | [r] =>
    match r.spot_recovery with
    | none => .error .assertionError
    | some nm =>
      let task1 : Task := ⟨[{ r with spot_recovery := none }]⟩
      match SPOT_STRATEGIES.lookup nm with
      | none => .error .keyError
      | some tag => .ok (task1, tag)
  | _ => .error .assertionError

/-! ### Concrete environments used to exercise the definitions -/

/-- A poll iteration that observes a healthy UP cluster and a job still
pending (no status yet). -/
def pollPendingStep : PollStep := ⟨.ok .UP, .ok none, .ok 0⟩

/-- Every attempt: no signal, provisioning succeeds, and every poll sees a
healthy cluster with the job still pending. -/
def exhaustEnv : Nat → AttemptEnv := fun _ => ⟨false, .ok (), fun _ => pollPendingStep⟩

/-- Every attempt: no signal, provisioning succeeds, and the first poll's
cluster-status refresh raises, marking "needs relaunch". -/
def relaunchEnv : Nat → AttemptEnv :=
  fun _ => ⟨false, .ok (), fun _ => ⟨.error (), .ok none, .ok 0⟩⟩

/-- Every attempt: no signal, provisioning fails with an ordinary
(non-exhaustion) error. -/
def failEnv : Nat → AttemptEnv := fun _ => ⟨false, .error ⟨false⟩, fun _ => pollPendingStep⟩

/-- Every attempt: no signal, provisioning succeeds, first poll sees UP and
a RUNNING job whose start timestamp is 42. -/
def successEnv : Nat → AttemptEnv :=
  fun _ => ⟨false, .ok (), fun _ => ⟨.ok .UP, .ok (some .RUNNING), .ok 42⟩⟩

/-- Every attempt raises the cancellation signal. -/
def signalEnv : Nat → AttemptEnv := fun _ => ⟨true, .ok (), fun _ => pollPendingStep⟩

/-- Every attempt: provisioning fails with the total-exhaustion error. -/
def exhaustErrEnv : Nat → AttemptEnv :=
  fun _ => ⟨false, .error ⟨true⟩, fun _ => pollPendingStep⟩

/-- The state `_launch` starts from when the executor's blocklists are
empty. -/
def emptyState : LaunchState := ⟨∅, ∅, Backoff.start RETRY_INIT_GAP_SECONDS, 0⟩

/-- The environment has no total-exhaustion provisioning failure. -/
def noExhaust (env : Nat → AttemptEnv) : Prop :=
  ∀ k e, (env k).launchOutcome = .error e → e.exhausted = false

/-- A concrete handle: cluster last launched in zoneZ of regionR. -/
def handleA : Handle := ⟨⟨"cloudA", "regionR", "zoneZ", none⟩⟩

/-- Recovery iterations whose relaunches succeed immediately. -/
def succIters : Nat → RecoverIterEnv := fun _ => ⟨none, fun _ => true, successEnv, 1, none⟩

/-- Recovery iterations whose relaunches always fail to provision; the
handle refetch still finds the cluster. -/
def failIters : Nat → RecoverIterEnv :=
  fun _ => ⟨none, fun _ => true, failEnv, 3, some handleA⟩

/-- A concrete resource spec declaring the FAILOVER recovery policy. -/
def resourceA : Resources := ⟨"cloudA", "regionR", "zoneZ", some "FAILOVER"⟩

/-- The gaps of the backoff sleeps of a trace, in order. -/
def backoffSleeps : List Event → List Nat
  | [] => []
  | .backoffSleep g :: rest => g :: backoffSleeps rest
  | .signalCheck :: rest => backoffSleeps rest
  | .provisionCall _ _ :: rest => backoffSleeps rest
  | .fixedSleep _ :: rest => backoffSleeps rest

/-- The blocklists passed to the first provisioning call of a trace. -/
def firstProvision : List Event → Option (Finset String × Finset String)
  | [] => none
  | .provisionCall rs zs :: _ => some (rs, zs)
  | .signalCheck :: rest => firstProvision rest
  | .backoffSleep _ :: rest => firstProvision rest
  | .fixedSleep _ :: rest => firstProvision rest

/-- Scans a trace checking that every provisioning call is immediately
preceded by a signal check; the Bool argument records whether the previous
event was a signal check. -/
def checksPrecedeProvision : Bool → List Event → Bool
  | _, [] => true
  | prev, .provisionCall _ _ :: rest => prev && checksPrecedeProvision false rest
  | _, .signalCheck :: rest => checksPrecedeProvision true rest
  | _, .backoffSleep _ :: rest => checksPrecedeProvision false rest
  | _, .fixedSleep _ :: rest => checksPrecedeProvision false rest

/-- The gap sequence drawn from a doubling backoff whose current value is
`v`: `v, 2v, 4v, ...` of the given length. -/
def geomGaps (v : Nat) : Nat → List Nat
  | 0 => []
  | n + 1 => v :: geomGaps (v * 2) n

/-! ### Step lemmas: one iteration of the `_launch` loop -/

theorem clearedOnExhaust_retryCnt (e : LaunchErr) (s : LaunchState) :
    (clearedOnExhaust e s).retryCnt = s.retryCnt := by
  unfold clearedOnExhaust; split <;> rfl

theorem clearedOnExhaust_backoff (e : LaunchErr) (s : LaunchState) :
    (clearedOnExhaust e s).backoff = s.backoff := by
  unfold clearedOnExhaust; split <;> rfl

theorem launchAux_zero (mr : Option Nat) (rof : Bool) (env : Nat → AttemptEnv)
    (i : Nat) (s : LaunchState) : launchAux mr rof env i 0 s = ⟨.outOfFuel, s, []⟩ := rfl

theorem launchAux_signal (mr : Option Nat) (rof : Bool) (env : Nat → AttemptEnv)
    (i fuel : Nat) (s : LaunchState) (hs : (env i).signalRaised = true) :
    launchAux mr rof env i (fuel + 1) s =
      ⟨.raisedSignal, ⟨s.blockedRegions, s.blockedZones, s.backoff, s.retryCnt + 1⟩,
        [.signalCheck]⟩ := by
  simp [launchAux, hs]

theorem launchAux_error_hitMax_exhausted (mr : Option Nat) (rof : Bool)
    (env : Nat → AttemptEnv) (i fuel : Nat) (s : LaunchState) (e : LaunchErr)
    (hs : (env i).signalRaised = false) (ho : (env i).launchOutcome = .error e)
    (hex : e.exhausted = true) (hm : hitMaxRetry mr (s.retryCnt + 1) = true) :
    launchAux mr rof env i (fuel + 1) s =
      ⟨if rof then .raisedResourcesUnavailable else .returned none,
        ⟨∅, ∅, s.backoff, s.retryCnt + 1⟩,
        [.signalCheck, .provisionCall s.blockedRegions s.blockedZones]⟩ := by
  simp [launchAux, hs, ho, clearedOnExhaust, hex, hm]
  split <;> rfl

theorem launchAux_error_hitMax_plain (mr : Option Nat) (rof : Bool)
    (env : Nat → AttemptEnv) (i fuel : Nat) (s : LaunchState) (e : LaunchErr)
    (hs : (env i).signalRaised = false) (ho : (env i).launchOutcome = .error e)
    (hex : e.exhausted = false) (hm : hitMaxRetry mr (s.retryCnt + 1) = true) :
    launchAux mr rof env i (fuel + 1) s =
      ⟨if rof then .raisedResourcesUnavailable else .returned none,
        ⟨s.blockedRegions, s.blockedZones, s.backoff, s.retryCnt + 1⟩,
        [.signalCheck, .provisionCall s.blockedRegions s.blockedZones]⟩ := by
  simp [launchAux, hs, ho, clearedOnExhaust, hex, hm]
  split <;> rfl

theorem launchAux_error_retry_exhausted (mr : Option Nat) (rof : Bool)
    (env : Nat → AttemptEnv) (i fuel : Nat) (s : LaunchState) (e : LaunchErr)
    (hs : (env i).signalRaised = false) (ho : (env i).launchOutcome = .error e)
    (hex : e.exhausted = true) (hm : hitMaxRetry mr (s.retryCnt + 1) = false) :
    launchAux mr rof env i (fuel + 1) s =
      ⟨(launchAux mr rof env (i + 1) fuel
          ⟨∅, ∅, ⟨s.backoff.currentValue * 2⟩, s.retryCnt + 1⟩).result,
        (launchAux mr rof env (i + 1) fuel
          ⟨∅, ∅, ⟨s.backoff.currentValue * 2⟩, s.retryCnt + 1⟩).state,
        .signalCheck :: .provisionCall s.blockedRegions s.blockedZones ::
          .backoffSleep s.backoff.currentValue ::
          (launchAux mr rof env (i + 1) fuel
            ⟨∅, ∅, ⟨s.backoff.currentValue * 2⟩, s.retryCnt + 1⟩).trace⟩ := by
  simp [launchAux, hs, ho, clearedOnExhaust, hex, hm, Backoff.current_backoff]

theorem launchAux_error_retry_plain (mr : Option Nat) (rof : Bool)
    (env : Nat → AttemptEnv) (i fuel : Nat) (s : LaunchState) (e : LaunchErr)
    (hs : (env i).signalRaised = false) (ho : (env i).launchOutcome = .error e)
    (hex : e.exhausted = false) (hm : hitMaxRetry mr (s.retryCnt + 1) = false) :
    launchAux mr rof env i (fuel + 1) s =
      ⟨(launchAux mr rof env (i + 1) fuel
          ⟨s.blockedRegions, s.blockedZones, ⟨s.backoff.currentValue * 2⟩,
            s.retryCnt + 1⟩).result,
        (launchAux mr rof env (i + 1) fuel
          ⟨s.blockedRegions, s.blockedZones, ⟨s.backoff.currentValue * 2⟩,
            s.retryCnt + 1⟩).state,
        .signalCheck :: .provisionCall s.blockedRegions s.blockedZones ::
          .backoffSleep s.backoff.currentValue ::
          (launchAux mr rof env (i + 1) fuel
            ⟨s.blockedRegions, s.blockedZones, ⟨s.backoff.currentValue * 2⟩,
              s.retryCnt + 1⟩).trace⟩ := by
  simp [launchAux, hs, ho, clearedOnExhaust, hex, hm, Backoff.current_backoff]

theorem launchAux_ok_success (mr : Option Nat) (rof : Bool) (env : Nat → AttemptEnv)
    (i fuel : Nat) (s : LaunchState) (t : Nat)
    (hs : (env i).signalRaised = false) (ho : (env i).launchOutcome = .ok ())
    (hp : pollAux (env i).polls 0 MAX_JOB_CHECKING_RETRY = .success t) :
    launchAux mr rof env i (fuel + 1) s =
      ⟨.returned (some t),
        ⟨s.blockedRegions, s.blockedZones, s.backoff, s.retryCnt + 1⟩,
        [.signalCheck, .provisionCall s.blockedRegions s.blockedZones]⟩ := by
  simp [launchAux, hs, ho, hp]

theorem launchAux_ok_exhausted (mr : Option Nat) (rof : Bool) (env : Nat → AttemptEnv)
    (i fuel : Nat) (s : LaunchState)
    (hs : (env i).signalRaised = false) (ho : (env i).launchOutcome = .ok ())
    (hp : pollAux (env i).polls 0 MAX_JOB_CHECKING_RETRY = .exhausted) :
    launchAux mr rof env i (fuel + 1) s =
      ⟨.returned none,
        ⟨s.blockedRegions, s.blockedZones, s.backoff, s.retryCnt + 1⟩,
        [.signalCheck, .provisionCall s.blockedRegions s.blockedZones]⟩ := by
  simp [launchAux, hs, ho, hp]

theorem launchAux_ok_retry (mr : Option Nat) (rof : Bool) (env : Nat → AttemptEnv)
    (i fuel : Nat) (s : LaunchState)
    (hs : (env i).signalRaised = false) (ho : (env i).launchOutcome = .ok ())
    (hp : pollAux (env i).polls 0 MAX_JOB_CHECKING_RETRY = .retryLaunch) :
    launchAux mr rof env i (fuel + 1) s =
      ⟨(launchAux mr rof env (i + 1) fuel
          ⟨s.blockedRegions, s.blockedZones, ⟨s.backoff.currentValue * 2⟩,
            s.retryCnt + 1⟩).result,
        (launchAux mr rof env (i + 1) fuel
          ⟨s.blockedRegions, s.blockedZones, ⟨s.backoff.currentValue * 2⟩,
            s.retryCnt + 1⟩).state,
        .signalCheck :: .provisionCall s.blockedRegions s.blockedZones ::
          .backoffSleep s.backoff.currentValue ::
          (launchAux mr rof env (i + 1) fuel
            ⟨s.blockedRegions, s.blockedZones, ⟨s.backoff.currentValue * 2⟩,
              s.retryCnt + 1⟩).trace⟩ := by
  simp [launchAux, hs, ho, hp, Backoff.current_backoff]

/-! ### Characterizations of the loop outcomes -/

theorem pollAux_success (polls : Nat → PollStep) :
    ∀ r j t, pollAux polls j r = .success t →
      ∃ k, (polls k).refresh = .ok ClusterStatus.UP ∧
        (∃ st, (polls k).jobStatus = .ok (some st)) ∧ (polls k).timestamp = .ok t := by
  intro r
  induction r with
  | zero => intro j t h; simp [pollAux] at h
  | succ n ih =>
    intro j t h
    rw [pollAux] at h
    cases hr : (polls j).refresh with
    | error u => rw [hr] at h; simp at h
    | ok st =>
      rw [hr] at h
      by_cases hup : st = ClusterStatus.UP
      · subst hup
        simp only [ne_eq, not_true_eq_false, if_false] at h
        cases hj : (polls j).jobStatus with
        | error u => rw [hj] at h; simp at h
        | ok os =>
          rw [hj] at h
          cases os with
          | none => exact ih (j + 1) t h
          | some st2 =>
            cases ht : (polls j).timestamp with
            | error u => rw [ht] at h; simp at h
            | ok t2 =>
              rw [ht] at h
              cases h
              exact ⟨j, hr, ⟨st2, hj⟩, ht⟩
      · simp [hup] at h

theorem launchAux_returned (mr : Option Nat) (env : Nat → AttemptEnv) :
    ∀ fuel i s v, (launchAux mr true env i fuel s).result = .returned v →
      ∃ k, (env k).signalRaised = false ∧ (env k).launchOutcome = .ok () ∧
        ((v = none ∧ pollAux (env k).polls 0 MAX_JOB_CHECKING_RETRY = .exhausted) ∨
          ∃ t, v = some t ∧
            pollAux (env k).polls 0 MAX_JOB_CHECKING_RETRY = .success t) := by
  intro fuel
  induction fuel with
  | zero => intro i s v h; rw [launchAux_zero] at h; cases h
  | succ n ih =>
    intro i s v h
    cases hs : (env i).signalRaised with
    | true => rw [launchAux_signal mr true env i n s hs] at h; cases h
    | false =>
      cases ho : (env i).launchOutcome with
      | error e =>
        cases hex : e.exhausted with
        | true =>
          cases hm : hitMaxRetry mr (s.retryCnt + 1) with
          | true =>
            rw [launchAux_error_hitMax_exhausted mr true env i n s e hs ho hex hm] at h
            simp at h
          | false =>
            rw [launchAux_error_retry_exhausted mr true env i n s e hs ho hex hm] at h
            exact ih (i + 1) _ v h
        | false =>
          cases hm : hitMaxRetry mr (s.retryCnt + 1) with
          | true =>
            rw [launchAux_error_hitMax_plain mr true env i n s e hs ho hex hm] at h
            simp at h
          | false =>
            rw [launchAux_error_retry_plain mr true env i n s e hs ho hex hm] at h
            exact ih (i + 1) _ v h
      | ok u =>
        cases u
        cases hp : pollAux (env i).polls 0 MAX_JOB_CHECKING_RETRY with
        | success t =>
          rw [launchAux_ok_success mr true env i n s t hs ho hp] at h
          cases h
          exact ⟨i, hs, ho, Or.inr ⟨t, rfl, hp⟩⟩
        | retryLaunch =>
          rw [launchAux_ok_retry mr true env i n s hs ho hp] at h
          exact ih (i + 1) _ v h
        | exhausted =>
          rw [launchAux_ok_exhausted mr true env i n s hs ho hp] at h
          cases h
          exact ⟨i, hs, ho, Or.inl ⟨rfl, hp⟩⟩

theorem launchAux_sets (mr : Option Nat) (rof : Bool) (env : Nat → AttemptEnv) :
    ∀ fuel i s,
      ((launchAux mr rof env i fuel s).state.blockedRegions = s.blockedRegions ∧
        (launchAux mr rof env i fuel s).state.blockedZones = s.blockedZones) ∨
      ((launchAux mr rof env i fuel s).state.blockedRegions = ∅ ∧
        (launchAux mr rof env i fuel s).state.blockedZones = ∅ ∧
        ∃ k e, (env k).launchOutcome = .error e ∧ e.exhausted = true) := by
  intro fuel
  induction fuel with
  | zero => intro i s; rw [launchAux_zero]; exact Or.inl ⟨rfl, rfl⟩
  | succ n ih =>
    intro i s
    cases hs : (env i).signalRaised with
    | true => rw [launchAux_signal mr rof env i n s hs]; exact Or.inl ⟨rfl, rfl⟩
    | false =>
      cases ho : (env i).launchOutcome with
      | error e =>
        cases hex : e.exhausted with
        | true =>
          cases hm : hitMaxRetry mr (s.retryCnt + 1) with
          | true =>
            rw [launchAux_error_hitMax_exhausted mr rof env i n s e hs ho hex hm]
            exact Or.inr ⟨rfl, rfl, i, e, ho, hex⟩
          | false =>
            rw [launchAux_error_retry_exhausted mr rof env i n s e hs ho hex hm]
            rcases ih (i + 1)
                ⟨∅, ∅, ⟨s.backoff.currentValue * 2⟩, s.retryCnt + 1⟩ with
              ⟨h1, h2⟩ | ⟨h1, h2, hw⟩
            · exact Or.inr ⟨h1, h2, i, e, ho, hex⟩
            · exact Or.inr ⟨h1, h2, hw⟩
        | false =>
          cases hm : hitMaxRetry mr (s.retryCnt + 1) with
          | true =>
            rw [launchAux_error_hitMax_plain mr rof env i n s e hs ho hex hm]
            exact Or.inl ⟨rfl, rfl⟩
          | false =>
            rw [launchAux_error_retry_plain mr rof env i n s e hs ho hex hm]
            rcases ih (i + 1)
                ⟨s.blockedRegions, s.blockedZones, ⟨s.backoff.currentValue * 2⟩,
                  s.retryCnt + 1⟩ with ⟨h1, h2⟩ | ⟨h1, h2, hw⟩
            · exact Or.inl ⟨h1, h2⟩
            · exact Or.inr ⟨h1, h2, hw⟩
      | ok u =>
        cases u
        cases hp : pollAux (env i).polls 0 MAX_JOB_CHECKING_RETRY with
        | success t =>
          rw [launchAux_ok_success mr rof env i n s t hs ho hp]
          exact Or.inl ⟨rfl, rfl⟩
        | exhausted =>
          rw [launchAux_ok_exhausted mr rof env i n s hs ho hp]
          exact Or.inl ⟨rfl, rfl⟩
        | retryLaunch =>
          rw [launchAux_ok_retry mr rof env i n s hs ho hp]
          rcases ih (i + 1)
              ⟨s.blockedRegions, s.blockedZones, ⟨s.backoff.currentValue * 2⟩,
                s.retryCnt + 1⟩ with ⟨h1, h2⟩ | ⟨h1, h2, hw⟩
          · exact Or.inl ⟨h1, h2⟩
          · exact Or.inr ⟨h1, h2, hw⟩

theorem launchAux_relaunch_diverges (mr : Option Nat) (rof : Bool) (env : Nat → AttemptEnv)
    (hall : ∀ k, (env k).signalRaised = false ∧ (env k).launchOutcome = .ok () ∧
      pollAux (env k).polls 0 MAX_JOB_CHECKING_RETRY = .retryLaunch) :
    ∀ fuel i s, (launchAux mr rof env i fuel s).result = .outOfFuel ∧
      (launchAux mr rof env i fuel s).state.retryCnt = s.retryCnt + fuel := by
  intro fuel
  induction fuel with
  | zero => intro i s; rw [launchAux_zero]; exact ⟨rfl, rfl⟩
  | succ n ih =>
    intro i s
    obtain ⟨hs, ho, hp⟩ := hall i
    rw [launchAux_ok_retry mr rof env i n s hs ho hp]
    obtain ⟨h1, h2⟩ := ih (i + 1)
      { s with
          retryCnt := s.retryCnt + 1
          backoff := ⟨s.backoff.currentValue * 2⟩ }
    refine ⟨h1, ?_⟩
    rw [h2]
    show s.retryCnt + 1 + n = s.retryCnt + (n + 1)
    omega

theorem launchAux_allFail_diverges (rof : Bool) (env : Nat → AttemptEnv)
    (hall : ∀ k, (env k).signalRaised = false ∧ ∃ e, (env k).launchOutcome = .error e) :
    ∀ fuel i s, (launchAux none rof env i fuel s).result = .outOfFuel := by
  intro fuel
  induction fuel with
  | zero => intro i s; rw [launchAux_zero]
  | succ n ih =>
    intro i s
    obtain ⟨hs, e, ho⟩ := hall i
    cases hex : e.exhausted with
    | true =>
      rw [launchAux_error_retry_exhausted none rof env i n s e hs ho hex rfl]
      exact ih (i + 1) _
    | false =>
      rw [launchAux_error_retry_plain none rof env i n s e hs ho hex rfl]
      exact ih (i + 1) _

theorem geomGaps_head (w : Nat) (m : Nat) (a : Nat) (l : List Nat)
    (h : geomGaps w m = a :: l) : a = w := by
  cases m with
  | zero => simp [geomGaps] at h
  | succ k => rw [geomGaps] at h; cases h; rfl

theorem geomGaps_chain (n : Nat) : ∀ v, List.Chain' (· ≤ ·) (geomGaps v n) := by
  induction n with
  | zero => intro v; simp [geomGaps]
  | succ m ih =>
    intro v
    rw [geomGaps]
    cases hm2 : geomGaps (v * 2) m with
    | nil => simp
    | cons a l =>
      rw [List.chain'_cons]
      refine ⟨?_, ?_⟩
      · have := geomGaps_head (v * 2) m a l hm2
        omega
      · rw [← hm2]; exact ih (v * 2)

theorem launchAux_gaps (mr : Option Nat) (rof : Bool) (env : Nat → AttemptEnv) :
    ∀ fuel i s, ∃ n, backoffSleeps (launchAux mr rof env i fuel s).trace =
      geomGaps s.backoff.currentValue n := by
  intro fuel
  induction fuel with
  | zero => intro i s; exact ⟨0, by rw [launchAux_zero]; rfl⟩
  | succ n ih =>
    intro i s
    cases hs : (env i).signalRaised with
    | true =>
      rw [launchAux_signal mr rof env i n s hs]
      exact ⟨0, rfl⟩
    | false =>
      cases ho : (env i).launchOutcome with
      | error e =>
        cases hex : e.exhausted with
        | true =>
          cases hm : hitMaxRetry mr (s.retryCnt + 1) with
          | true =>
            rw [launchAux_error_hitMax_exhausted mr rof env i n s e hs ho hex hm]
            exact ⟨0, rfl⟩
          | false =>
            rw [launchAux_error_retry_exhausted mr rof env i n s e hs ho hex hm]
            obtain ⟨m, hmain⟩ := ih (i + 1)
              ⟨∅, ∅, ⟨s.backoff.currentValue * 2⟩, s.retryCnt + 1⟩
            refine ⟨m + 1, ?_⟩
            simp only [backoffSleeps, geomGaps]
            rw [hmain]
        | false =>
          cases hm : hitMaxRetry mr (s.retryCnt + 1) with
          | true =>
            rw [launchAux_error_hitMax_plain mr rof env i n s e hs ho hex hm]
            exact ⟨0, rfl⟩
          | false =>
            rw [launchAux_error_retry_plain mr rof env i n s e hs ho hex hm]
            obtain ⟨m, hmain⟩ := ih (i + 1)
              ⟨s.blockedRegions, s.blockedZones, ⟨s.backoff.currentValue * 2⟩,
                s.retryCnt + 1⟩
            refine ⟨m + 1, ?_⟩
            simp only [backoffSleeps, geomGaps]
            rw [hmain]
      | ok u =>
        cases u
        cases hp : pollAux (env i).polls 0 MAX_JOB_CHECKING_RETRY with
        | success t =>
          rw [launchAux_ok_success mr rof env i n s t hs ho hp]
          exact ⟨0, rfl⟩
        | exhausted =>
          rw [launchAux_ok_exhausted mr rof env i n s hs ho hp]
          exact ⟨0, rfl⟩
        | retryLaunch =>
          rw [launchAux_ok_retry mr rof env i n s hs ho hp]
          obtain ⟨m, hmain⟩ := ih (i + 1)
            ⟨s.blockedRegions, s.blockedZones, ⟨s.backoff.currentValue * 2⟩,
              s.retryCnt + 1⟩
          refine ⟨m + 1, ?_⟩
          simp only [backoffSleeps, geomGaps]
          rw [hmain]

theorem launchAux_checks (mr : Option Nat) (rof : Bool) (env : Nat → AttemptEnv) :
    ∀ fuel i s,
      checksPrecedeProvision false (launchAux mr rof env i fuel s).trace = true := by
  intro fuel
  induction fuel with
  | zero => intro i s; rw [launchAux_zero]; rfl
  | succ n ih =>
    intro i s
    cases hs : (env i).signalRaised with
    | true => rw [launchAux_signal mr rof env i n s hs]; rfl
    | false =>
      cases ho : (env i).launchOutcome with
      | error e =>
        cases hex : e.exhausted with
        | true =>
          cases hm : hitMaxRetry mr (s.retryCnt + 1) with
          | true =>
            rw [launchAux_error_hitMax_exhausted mr rof env i n s e hs ho hex hm]; rfl
          | false =>
            rw [launchAux_error_retry_exhausted mr rof env i n s e hs ho hex hm]
            simp only [checksPrecedeProvision, Bool.true_and]
            exact ih (i + 1) _
        | false =>
          cases hm : hitMaxRetry mr (s.retryCnt + 1) with
          | true =>
            rw [launchAux_error_hitMax_plain mr rof env i n s e hs ho hex hm]; rfl
          | false =>
            rw [launchAux_error_retry_plain mr rof env i n s e hs ho hex hm]
            simp only [checksPrecedeProvision, Bool.true_and]
            exact ih (i + 1) _
      | ok u =>
        cases u
        cases hp : pollAux (env i).polls 0 MAX_JOB_CHECKING_RETRY with
        | success t => rw [launchAux_ok_success mr rof env i n s t hs ho hp]; rfl
        | exhausted => rw [launchAux_ok_exhausted mr rof env i n s hs ho hp]; rfl
        | retryLaunch =>
          rw [launchAux_ok_retry mr rof env i n s hs ho hp]
          simp only [checksPrecedeProvision, Bool.true_and]
          exact ih (i + 1) _

theorem launchAux_firstProvision (mr : Option Nat) (rof : Bool) (env : Nat → AttemptEnv)
    (fuel i : Nat) (s : LaunchState) :
    firstProvision (launchAux mr rof env i fuel s).trace = none ∨
      firstProvision (launchAux mr rof env i fuel s).trace =
        some (s.blockedRegions, s.blockedZones) := by
  cases fuel with
  | zero => left; rw [launchAux_zero]; rfl
  | succ n =>
    cases hs : (env i).signalRaised with
    | true => left; rw [launchAux_signal mr rof env i n s hs]; rfl
    | false =>
      cases ho : (env i).launchOutcome with
      | error e =>
        cases hex : e.exhausted with
        | true =>
          cases hm : hitMaxRetry mr (s.retryCnt + 1) with
          | true =>
            right
            rw [launchAux_error_hitMax_exhausted mr rof env i n s e hs ho hex hm]; rfl
          | false =>
            right
            rw [launchAux_error_retry_exhausted mr rof env i n s e hs ho hex hm]; rfl
        | false =>
          cases hm : hitMaxRetry mr (s.retryCnt + 1) with
          | true =>
            right
            rw [launchAux_error_hitMax_plain mr rof env i n s e hs ho hex hm]; rfl
          | false =>
            right
            rw [launchAux_error_retry_plain mr rof env i n s e hs ho hex hm]; rfl
      | ok u =>
        cases u
        cases hp : pollAux (env i).polls 0 MAX_JOB_CHECKING_RETRY with
        | success t =>
          right; rw [launchAux_ok_success mr rof env i n s t hs ho hp]; rfl
        | exhausted =>
          right; rw [launchAux_ok_exhausted mr rof env i n s hs ho hp]; rfl
        | retryLaunch =>
          right; rw [launchAux_ok_retry mr rof env i n s hs ho hp]; rfl

theorem launchAux_returned_firstProvision (mr : Option Nat) (rof : Bool)
    (env : Nat → AttemptEnv) (fuel i : Nat) (s : LaunchState) (v : Option Nat)
    (h : (launchAux mr rof env i fuel s).result = .returned v) :
    firstProvision (launchAux mr rof env i fuel s).trace =
      some (s.blockedRegions, s.blockedZones) := by
  cases fuel with
  | zero => rw [launchAux_zero] at h; cases h
  | succ n =>
    cases hs : (env i).signalRaised with
    | true => rw [launchAux_signal mr rof env i n s hs] at h; cases h
    | false =>
      cases ho : (env i).launchOutcome with
      | error e =>
        cases hex : e.exhausted with
        | true =>
          cases hm : hitMaxRetry mr (s.retryCnt + 1) with
          | true =>
            rw [launchAux_error_hitMax_exhausted mr rof env i n s e hs ho hex hm]; rfl
          | false =>
            rw [launchAux_error_retry_exhausted mr rof env i n s e hs ho hex hm]; rfl
        | false =>
          cases hm : hitMaxRetry mr (s.retryCnt + 1) with
          | true =>
            rw [launchAux_error_hitMax_plain mr rof env i n s e hs ho hex hm]; rfl
          | false =>
            rw [launchAux_error_retry_plain mr rof env i n s e hs ho hex hm]; rfl
      | ok u =>
        cases u
        cases hp : pollAux (env i).polls 0 MAX_JOB_CHECKING_RETRY with
        | success t =>
          rw [launchAux_ok_success mr rof env i n s t hs ho hp]; rfl
        | exhausted =>
          rw [launchAux_ok_exhausted mr rof env i n s hs ho hp]; rfl
        | retryLaunch =>
          rw [launchAux_ok_retry mr rof env i n s hs ho hp]; rfl

theorem firstProvision_append_some (l1 l2 : List Event)
    (p : Finset String × Finset String) (h : firstProvision l1 = some p) :
    firstProvision (l1 ++ l2) = some p := by
  induction l1 with
  | nil => cases h
  | cons e rest ih =>
    cases e with
    | provisionCall rs zs =>
      simp only [firstProvision] at h
      simp only [List.cons_append, firstProvision]
      exact h
    | signalCheck =>
      simp only [firstProvision] at h
      simp only [List.cons_append, firstProvision]
      exact ih h
    | backoffSleep g =>
      simp only [firstProvision] at h
      simp only [List.cons_append, firstProvision]
      exact ih h
    | fixedSleep g =>
      simp only [firstProvision] at h
      simp only [List.cons_append, firstProvision]
      exact ih h

theorem terminateAux_allFail (teardown : Nat → Bool) (maxRetry : Nat) :
    ∀ d c, maxRetry - c = d → c < maxRetry →
      (∀ j, j < maxRetry → teardown j = false) →
      terminateAux teardown maxRetry c = (.error (), maxRetry) := by
  intro d
  induction d with
  | zero => intro c hd hc _; omega
  | succ n ih =>
    intro c hd hc hfail
    rw [terminateAux, hfail c hc]
    simp only [Bool.false_eq_true, if_false]
    by_cases hge : c + 1 ≥ maxRetry
    · rw [dif_pos hge]
      have : c + 1 = maxRetry := by omega
      rw [this]
    · rw [dif_neg hge]
      exact ih (c + 1) (by omega) (by omega) hfail

theorem terminateAux_success (teardown : Nat → Bool) (maxRetry : Nat) :
    ∀ d c, c + d < maxRetry → (∀ j, c ≤ j → j < c + d → teardown j = false) →
      teardown (c + d) = true →
      terminateAux teardown maxRetry c = (.ok (), c + d + 1) := by
  intro d
  induction d with
  | zero =>
    intro c _ _ hsucc
    rw [Nat.add_zero] at hsucc
    rw [terminateAux, hsucc]
    simp
  | succ n ih =>
    intro c hlt hfail hsucc
    rw [terminateAux, hfail c (le_refl c) (by omega)]
    simp only [Bool.false_eq_true, if_false]
    rw [dif_neg (by omega : ¬c + 1 ≥ maxRetry)]
    have harith : c + 1 + n = c + (n + 1) := by omega
    have ihx := ih (c + 1) (by omega)
      (fun j hj1 hj2 => hfail j (by omega) (by omega))
      (by rw [harith]; exact hsucc)
    rw [ihx]
    have : c + 1 + n + 1 = c + (n + 1) + 1 := by omega
    rw [this]

/-! ### Step lemmas: one iteration of the CrossRegion recover loop -/

theorem recoverLoopCR_zero (rtu : Bool) (iters : Nat → RecoverIterEnv) (k : Nat)
    (rs zs : Finset String) :
    CrossRegion.recoverLoop rtu iters k rs zs 0 = ⟨.outOfFuel, rs, zs, []⟩ := rfl

theorem recoverLoopCR_termFail (rtu : Bool) (iters : Nat → RecoverIterEnv)
    (k fuel : Nat) (rs zs : Finset String) (c : Nat)
    (ht : terminate_cluster (iters k).terminateHandle (iters k).teardown 3 =
      (.error (), c)) :
    CrossRegion.recoverLoop rtu iters k rs zs (fuel + 1) =
      ⟨.terminateFailed, rs, zs, []⟩ := by
  simp [CrossRegion.recoverLoop, ht]

theorem recoverLoopCR_ok (rtu : Bool) (iters : Nat → RecoverIterEnv) (k fuel : Nat)
    (rs zs : Finset String) (c t : Nat)
    (ht : terminate_cluster (iters k).terminateHandle (iters k).teardown 3 =
      (.ok (), c))
    (hl : (_launch (some 3) false (iters k).launchEnv rs zs (iters k).launchFuel).result =
      .returned (some t)) :
    CrossRegion.recoverLoop rtu iters k rs zs (fuel + 1) =
      ⟨.ok t,
        (_launch (some 3) false (iters k).launchEnv rs zs
          (iters k).launchFuel).state.blockedRegions,
        (_launch (some 3) false (iters k).launchEnv rs zs
          (iters k).launchFuel).state.blockedZones,
        (_launch (some 3) false (iters k).launchEnv rs zs
          (iters k).launchFuel).trace⟩ := by
  simp [CrossRegion.recoverLoop, ht, hl]

theorem recoverLoopCR_noneRetry (iters : Nat → RecoverIterEnv) (k fuel : Nat)
    (rs zs : Finset String) (c : Nat)
    (ht : terminate_cluster (iters k).terminateHandle (iters k).teardown 3 =
      (.ok (), c))
    (hl : (_launch (some 3) false (iters k).launchEnv rs zs (iters k).launchFuel).result =
      .returned none) :
    CrossRegion.recoverLoop true iters k rs zs (fuel + 1) =
      ⟨(CrossRegion.recoverLoop true iters (k + 1)
          (regetBlockRegion (iters k).regetHandle
            (_launch (some 3) false (iters k).launchEnv rs zs
              (iters k).launchFuel).state.blockedRegions)
          (regetBlockZone (iters k).regetHandle
            (_launch (some 3) false (iters k).launchEnv rs zs
              (iters k).launchFuel).state.blockedZones) fuel).result,
        (CrossRegion.recoverLoop true iters (k + 1)
          (regetBlockRegion (iters k).regetHandle
            (_launch (some 3) false (iters k).launchEnv rs zs
              (iters k).launchFuel).state.blockedRegions)
          (regetBlockZone (iters k).regetHandle
            (_launch (some 3) false (iters k).launchEnv rs zs
              (iters k).launchFuel).state.blockedZones) fuel).blockedRegions,
        (CrossRegion.recoverLoop true iters (k + 1)
          (regetBlockRegion (iters k).regetHandle
            (_launch (some 3) false (iters k).launchEnv rs zs
              (iters k).launchFuel).state.blockedRegions)
          (regetBlockZone (iters k).regetHandle
            (_launch (some 3) false (iters k).launchEnv rs zs
              (iters k).launchFuel).state.blockedZones) fuel).blockedZones,
        (_launch (some 3) false (iters k).launchEnv rs zs (iters k).launchFuel).trace ++
          [.fixedSleep RETRY_INIT_GAP_SECONDS] ++
          (CrossRegion.recoverLoop true iters (k + 1)
            (regetBlockRegion (iters k).regetHandle
              (_launch (some 3) false (iters k).launchEnv rs zs
                (iters k).launchFuel).state.blockedRegions)
            (regetBlockZone (iters k).regetHandle
              (_launch (some 3) false (iters k).launchEnv rs zs
                (iters k).launchFuel).state.blockedZones) fuel).trace⟩ := by
  simp [CrossRegion.recoverLoop, ht, hl]

theorem recoverLoopCR_noneRaise (iters : Nat → RecoverIterEnv) (k fuel : Nat)
    (rs zs : Finset String) (c : Nat)
    (ht : terminate_cluster (iters k).terminateHandle (iters k).teardown 3 =
      (.ok (), c))
    (hl : (_launch (some 3) false (iters k).launchEnv rs zs (iters k).launchFuel).result =
      .returned none) :
    CrossRegion.recoverLoop false iters k rs zs (fuel + 1) =
      ⟨.raisedResourcesUnavailable,
        regetBlockRegion (iters k).regetHandle
          (_launch (some 3) false (iters k).launchEnv rs zs
            (iters k).launchFuel).state.blockedRegions,
        regetBlockZone (iters k).regetHandle
          (_launch (some 3) false (iters k).launchEnv rs zs
            (iters k).launchFuel).state.blockedZones,
        (_launch (some 3) false (iters k).launchEnv rs zs (iters k).launchFuel).trace⟩ := by
  simp [CrossRegion.recoverLoop, ht, hl]

theorem recoverLoopCR_signal (rtu : Bool) (iters : Nat → RecoverIterEnv) (k fuel : Nat)
    (rs zs : Finset String) (c : Nat)
    (ht : terminate_cluster (iters k).terminateHandle (iters k).teardown 3 =
      (.ok (), c))
    (hl : (_launch (some 3) false (iters k).launchEnv rs zs (iters k).launchFuel).result =
      .raisedSignal) :
    CrossRegion.recoverLoop rtu iters k rs zs (fuel + 1) =
      ⟨.raisedSignal,
        (_launch (some 3) false (iters k).launchEnv rs zs
          (iters k).launchFuel).state.blockedRegions,
        (_launch (some 3) false (iters k).launchEnv rs zs
          (iters k).launchFuel).state.blockedZones,
        (_launch (some 3) false (iters k).launchEnv rs zs (iters k).launchFuel).trace⟩ := by
  simp [CrossRegion.recoverLoop, ht, hl]

theorem recoverLoopCR_rue (rtu : Bool) (iters : Nat → RecoverIterEnv) (k fuel : Nat)
    (rs zs : Finset String) (c : Nat)
    (ht : terminate_cluster (iters k).terminateHandle (iters k).teardown 3 =
      (.ok (), c))
    (hl : (_launch (some 3) false (iters k).launchEnv rs zs (iters k).launchFuel).result =
      .raisedResourcesUnavailable) :
    CrossRegion.recoverLoop rtu iters k rs zs (fuel + 1) =
      ⟨.raisedResourcesUnavailable,
        (_launch (some 3) false (iters k).launchEnv rs zs
          (iters k).launchFuel).state.blockedRegions,
        (_launch (some 3) false (iters k).launchEnv rs zs
          (iters k).launchFuel).state.blockedZones,
        (_launch (some 3) false (iters k).launchEnv rs zs (iters k).launchFuel).trace⟩ := by
  simp [CrossRegion.recoverLoop, ht, hl]

theorem recoverLoopCR_fuel (rtu : Bool) (iters : Nat → RecoverIterEnv) (k fuel : Nat)
    (rs zs : Finset String) (c : Nat)
    (ht : terminate_cluster (iters k).terminateHandle (iters k).teardown 3 =
      (.ok (), c))
    (hl : (_launch (some 3) false (iters k).launchEnv rs zs (iters k).launchFuel).result =
      .outOfFuel) :
    CrossRegion.recoverLoop rtu iters k rs zs (fuel + 1) =
      ⟨.outOfFuel,
        (_launch (some 3) false (iters k).launchEnv rs zs
          (iters k).launchFuel).state.blockedRegions,
        (_launch (some 3) false (iters k).launchEnv rs zs
          (iters k).launchFuel).state.blockedZones,
        (_launch (some 3) false (iters k).launchEnv rs zs (iters k).launchFuel).trace⟩ := by
  simp [CrossRegion.recoverLoop, ht, hl]

/-! ### Step lemmas: one iteration of the Failover recover loop -/

theorem recoverLoopF_zero (rtu : Bool) (iters : Nat → RecoverIterEnv)
    (hd : Option Handle) (k : Nat) (rs zs : Finset String) :
    FailoverStrategyExecutor.recoverLoop rtu iters hd k rs zs 0 =
      ⟨.outOfFuel, rs, zs, []⟩ := rfl

theorem recoverLoopF_null (rtu : Bool) (iters : Nat → RecoverIterEnv)
    (k fuel : Nat) (rs zs : Finset String) :
    FailoverStrategyExecutor.recoverLoop rtu iters none k rs zs (fuel + 1) =
      ⟨.nullDeref, rs, zs, []⟩ := by
  simp [FailoverStrategyExecutor.recoverLoop]

theorem recoverLoopF_termFail (rtu : Bool) (iters : Nat → RecoverIterEnv)
    (h : Handle) (k fuel : Nat) (rs zs : Finset String) (c : Nat)
    (ht : terminate_cluster (iters k).terminateHandle (iters k).teardown 3 =
      (.error (), c)) :
    FailoverStrategyExecutor.recoverLoop rtu iters (some h) k rs zs (fuel + 1) =
      ⟨.terminateFailed, rs, zs, []⟩ := by
  simp [FailoverStrategyExecutor.recoverLoop, ht]

theorem recoverLoopF_ok (rtu : Bool) (iters : Nat → RecoverIterEnv)
    (h : Handle) (k fuel : Nat) (rs zs : Finset String) (c t : Nat)
    (ht : terminate_cluster (iters k).terminateHandle (iters k).teardown 3 =
      (.ok (), c))
    (hl : (_launch (some 3) false (iters k).launchEnv rs zs (iters k).launchFuel).result =
      .returned (some t)) :
    FailoverStrategyExecutor.recoverLoop rtu iters (some h) k rs zs (fuel + 1) =
      ⟨.ok t,
        (_launch (some 3) false (iters k).launchEnv rs zs
          (iters k).launchFuel).state.blockedRegions,
        (_launch (some 3) false (iters k).launchEnv rs zs
          (iters k).launchFuel).state.blockedZones,
        (_launch (some 3) false (iters k).launchEnv rs zs (iters k).launchFuel).trace⟩ := by
  simp [FailoverStrategyExecutor.recoverLoop, ht, hl]

theorem recoverLoopF_noneRetry (iters : Nat → RecoverIterEnv)
    (h : Handle) (k fuel : Nat) (rs zs : Finset String) (c : Nat)
    (ht : terminate_cluster (iters k).terminateHandle (iters k).teardown 3 =
      (.ok (), c))
    (hl : (_launch (some 3) false (iters k).launchEnv rs zs (iters k).launchFuel).result =
      .returned none) :
    FailoverStrategyExecutor.recoverLoop true iters (some h) k rs zs (fuel + 1) =
      ⟨(FailoverStrategyExecutor.recoverLoop true iters (iters k).regetHandle (k + 1)
          (_launch (some 3) false (iters k).launchEnv rs zs
            (iters k).launchFuel).state.blockedRegions
          (regetBlockZone (iters k).regetHandle
            (_launch (some 3) false (iters k).launchEnv rs zs
              (iters k).launchFuel).state.blockedZones) fuel).result,
        (FailoverStrategyExecutor.recoverLoop true iters (iters k).regetHandle (k + 1)
          (_launch (some 3) false (iters k).launchEnv rs zs
            (iters k).launchFuel).state.blockedRegions
          (regetBlockZone (iters k).regetHandle
            (_launch (some 3) false (iters k).launchEnv rs zs
              (iters k).launchFuel).state.blockedZones) fuel).blockedRegions,
        (FailoverStrategyExecutor.recoverLoop true iters (iters k).regetHandle (k + 1)
          (_launch (some 3) false (iters k).launchEnv rs zs
            (iters k).launchFuel).state.blockedRegions
          (regetBlockZone (iters k).regetHandle
            (_launch (some 3) false (iters k).launchEnv rs zs
              (iters k).launchFuel).state.blockedZones) fuel).blockedZones,
        (_launch (some 3) false (iters k).launchEnv rs zs (iters k).launchFuel).trace ++
          [.fixedSleep RETRY_INIT_GAP_SECONDS] ++
          (FailoverStrategyExecutor.recoverLoop true iters (iters k).regetHandle (k + 1)
            (_launch (some 3) false (iters k).launchEnv rs zs
              (iters k).launchFuel).state.blockedRegions
            (regetBlockZone (iters k).regetHandle
              (_launch (some 3) false (iters k).launchEnv rs zs
                (iters k).launchFuel).state.blockedZones) fuel).trace⟩ := by
  simp [FailoverStrategyExecutor.recoverLoop, ht, hl]

theorem recoverLoopF_noneRaise (iters : Nat → RecoverIterEnv)
    (h : Handle) (k fuel : Nat) (rs zs : Finset String) (c : Nat)
    (ht : terminate_cluster (iters k).terminateHandle (iters k).teardown 3 =
      (.ok (), c))
    (hl : (_launch (some 3) false (iters k).launchEnv rs zs (iters k).launchFuel).result =
      .returned none) :
    FailoverStrategyExecutor.recoverLoop false iters (some h) k rs zs (fuel + 1) =
      ⟨.raisedResourcesUnavailable,
        (_launch (some 3) false (iters k).launchEnv rs zs
          (iters k).launchFuel).state.blockedRegions,
        regetBlockZone (iters k).regetHandle
          (_launch (some 3) false (iters k).launchEnv rs zs
            (iters k).launchFuel).state.blockedZones,
        (_launch (some 3) false (iters k).launchEnv rs zs (iters k).launchFuel).trace⟩ := by
  simp [FailoverStrategyExecutor.recoverLoop, ht, hl]

theorem recoverLoopF_signal (rtu : Bool) (iters : Nat → RecoverIterEnv)
    (h : Handle) (k fuel : Nat) (rs zs : Finset String) (c : Nat)
    (ht : terminate_cluster (iters k).terminateHandle (iters k).teardown 3 =
      (.ok (), c))
    (hl : (_launch (some 3) false (iters k).launchEnv rs zs (iters k).launchFuel).result =
      .raisedSignal) :
    FailoverStrategyExecutor.recoverLoop rtu iters (some h) k rs zs (fuel + 1) =
      ⟨.raisedSignal,
        (_launch (some 3) false (iters k).launchEnv rs zs
          (iters k).launchFuel).state.blockedRegions,
        (_launch (some 3) false (iters k).launchEnv rs zs
          (iters k).launchFuel).state.blockedZones,
        (_launch (some 3) false (iters k).launchEnv rs zs (iters k).launchFuel).trace⟩ := by
  simp [FailoverStrategyExecutor.recoverLoop, ht, hl]

theorem recoverLoopF_rue (rtu : Bool) (iters : Nat → RecoverIterEnv)
    (h : Handle) (k fuel : Nat) (rs zs : Finset String) (c : Nat)
    (ht : terminate_cluster (iters k).terminateHandle (iters k).teardown 3 =
      (.ok (), c))
    (hl : (_launch (some 3) false (iters k).launchEnv rs zs (iters k).launchFuel).result =
      .raisedResourcesUnavailable) :
    FailoverStrategyExecutor.recoverLoop rtu iters (some h) k rs zs (fuel + 1) =
      ⟨.raisedResourcesUnavailable,
        (_launch (some 3) false (iters k).launchEnv rs zs
          (iters k).launchFuel).state.blockedRegions,
        (_launch (some 3) false (iters k).launchEnv rs zs
          (iters k).launchFuel).state.blockedZones,
        (_launch (some 3) false (iters k).launchEnv rs zs (iters k).launchFuel).trace⟩ := by
  simp [FailoverStrategyExecutor.recoverLoop, ht, hl]

theorem recoverLoopF_fuel (rtu : Bool) (iters : Nat → RecoverIterEnv)
    (h : Handle) (k fuel : Nat) (rs zs : Finset String) (c : Nat)
    (ht : terminate_cluster (iters k).terminateHandle (iters k).teardown 3 =
      (.ok (), c))
    (hl : (_launch (some 3) false (iters k).launchEnv rs zs (iters k).launchFuel).result =
      .outOfFuel) :
    FailoverStrategyExecutor.recoverLoop rtu iters (some h) k rs zs (fuel + 1) =
      ⟨.outOfFuel,
        (_launch (some 3) false (iters k).launchEnv rs zs
          (iters k).launchFuel).state.blockedRegions,
        (_launch (some 3) false (iters k).launchEnv rs zs
          (iters k).launchFuel).state.blockedZones,
        (_launch (some 3) false (iters k).launchEnv rs zs (iters k).launchFuel).trace⟩ := by
  simp [FailoverStrategyExecutor.recoverLoop, ht, hl]

/-! ### Blocklist evolution -/

theorem launchAux_sets_noExhaust (mr : Option Nat) (rof : Bool) (env : Nat → AttemptEnv)
    (hne : noExhaust env) (fuel i : Nat) (s : LaunchState) :
    (launchAux mr rof env i fuel s).state.blockedRegions = s.blockedRegions ∧
      (launchAux mr rof env i fuel s).state.blockedZones = s.blockedZones := by
  rcases launchAux_sets mr rof env fuel i s with h | ⟨_, _, k, e, ho, hex⟩
  · exact h
  · rw [hne k e ho] at hex
    cases hex

theorem _launch_sets_noExhaust (mr : Option Nat) (rof : Bool) (env : Nat → AttemptEnv)
    (hne : noExhaust env) (rs zs : Finset String) (fuel : Nat) :
    (_launch mr rof env rs zs fuel).state.blockedRegions = rs ∧
      (_launch mr rof env rs zs fuel).state.blockedZones = zs :=
  launchAux_sets_noExhaust mr rof env hne fuel 0
    ⟨rs, zs, Backoff.start RETRY_INIT_GAP_SECONDS, 0⟩

theorem subset_regetBlockZone (hd : Option Handle) (a : Finset String) :
    a ⊆ regetBlockZone hd a := by
  cases hd with
  | none => exact Finset.Subset.refl _
  | some h2 => exact Finset.subset_insert _ _

theorem subset_regetBlockRegion (hd : Option Handle) (a : Finset String) :
    a ⊆ regetBlockRegion hd a := by
  cases hd with
  | none => exact Finset.Subset.refl _
  | some h2 => exact Finset.subset_insert _ _

theorem recoverLoopCR_mono (rtu : Bool) (iters : Nat → RecoverIterEnv)
    (hne : ∀ k2, noExhaust (iters k2).launchEnv) :
    ∀ fuel k rs zs,
      rs ⊆ (CrossRegion.recoverLoop rtu iters k rs zs fuel).blockedRegions ∧
      zs ⊆ (CrossRegion.recoverLoop rtu iters k rs zs fuel).blockedZones := by
  intro fuel
  induction fuel with
  | zero =>
    intro k rs zs
    rw [recoverLoopCR_zero]
    exact ⟨Finset.Subset.refl _, Finset.Subset.refl _⟩
  | succ n ih =>
    intro k rs zs
    obtain ⟨hR, hZ⟩ := _launch_sets_noExhaust (some 3) false (iters k).launchEnv (hne k)
      rs zs (iters k).launchFuel
    rcases ht : terminate_cluster (iters k).terminateHandle (iters k).teardown 3 with
      ⟨tr, tc⟩
    cases tr with
    | error u =>
      cases u
      simp only [recoverLoopCR_termFail rtu iters k n rs zs tc ht]
      exact ⟨Finset.Subset.refl _, Finset.Subset.refl _⟩
    | ok u =>
      cases u
      cases hl : (_launch (some 3) false (iters k).launchEnv rs zs
          (iters k).launchFuel).result with
      | returned v =>
        cases v with
        | some t =>
          simp only [recoverLoopCR_ok rtu iters k n rs zs tc t ht hl]
          rw [hR, hZ]
          exact ⟨Finset.Subset.refl _, Finset.Subset.refl _⟩
        | none =>
          cases rtu with
          | true =>
            simp only [recoverLoopCR_noneRetry iters k n rs zs tc ht hl]
            obtain ⟨ih1, ih2⟩ := ih (k + 1)
              (regetBlockRegion (iters k).regetHandle
                (_launch (some 3) false (iters k).launchEnv rs zs
                  (iters k).launchFuel).state.blockedRegions)
              (regetBlockZone (iters k).regetHandle
                (_launch (some 3) false (iters k).launchEnv rs zs
                  (iters k).launchFuel).state.blockedZones)
            refine ⟨Finset.Subset.trans ?_ ih1, Finset.Subset.trans ?_ ih2⟩
            · rw [hR]; exact subset_regetBlockRegion _ _
            · rw [hZ]; exact subset_regetBlockZone _ _
          | false =>
            simp only [recoverLoopCR_noneRaise iters k n rs zs tc ht hl]
            refine ⟨?_, ?_⟩
            · rw [hR]; exact subset_regetBlockRegion _ _
            · rw [hZ]; exact subset_regetBlockZone _ _
      | raisedSignal =>
        simp only [recoverLoopCR_signal rtu iters k n rs zs tc ht hl]
        rw [hR, hZ]
        exact ⟨Finset.Subset.refl _, Finset.Subset.refl _⟩
      | raisedResourcesUnavailable =>
        simp only [recoverLoopCR_rue rtu iters k n rs zs tc ht hl]
        rw [hR, hZ]
        exact ⟨Finset.Subset.refl _, Finset.Subset.refl _⟩
      | outOfFuel =>
        simp only [recoverLoopCR_fuel rtu iters k n rs zs tc ht hl]
        rw [hR, hZ]
        exact ⟨Finset.Subset.refl _, Finset.Subset.refl _⟩

theorem recoverLoopF_mono (rtu : Bool) (iters : Nat → RecoverIterEnv)
    (hne : ∀ k2, noExhaust (iters k2).launchEnv) :
    ∀ fuel hd k rs zs,
      rs ⊆ (FailoverStrategyExecutor.recoverLoop rtu iters hd k rs zs fuel).blockedRegions ∧
      zs ⊆ (FailoverStrategyExecutor.recoverLoop rtu iters hd k rs zs fuel).blockedZones := by
  intro fuel
  induction fuel with
  | zero =>
    intro hd k rs zs
    rw [recoverLoopF_zero]
    exact ⟨Finset.Subset.refl _, Finset.Subset.refl _⟩
  | succ n ih =>
    intro hd k rs zs
    cases hd with
    | none =>
      simp only [recoverLoopF_null rtu iters k n rs zs]
      exact ⟨Finset.Subset.refl _, Finset.Subset.refl _⟩
    | some h =>
      obtain ⟨hR, hZ⟩ := _launch_sets_noExhaust (some 3) false (iters k).launchEnv (hne k)
        rs zs (iters k).launchFuel
      rcases ht : terminate_cluster (iters k).terminateHandle (iters k).teardown 3 with
        ⟨tr, tc⟩
      cases tr with
      | error u =>
        cases u
        simp only [recoverLoopF_termFail rtu iters h k n rs zs tc ht]
        exact ⟨Finset.Subset.refl _, Finset.Subset.refl _⟩
      | ok u =>
        cases u
        cases hl : (_launch (some 3) false (iters k).launchEnv rs zs
            (iters k).launchFuel).result with
        | returned v =>
          cases v with
          | some t =>
            simp only [recoverLoopF_ok rtu iters h k n rs zs tc t ht hl]
            rw [hR, hZ]
            exact ⟨Finset.Subset.refl _, Finset.Subset.refl _⟩
          | none =>
            cases rtu with
            | true =>
              simp only [recoverLoopF_noneRetry iters h k n rs zs tc ht hl]
              obtain ⟨ih1, ih2⟩ := ih (iters k).regetHandle (k + 1)
                (_launch (some 3) false (iters k).launchEnv rs zs
                  (iters k).launchFuel).state.blockedRegions
                (regetBlockZone (iters k).regetHandle
                  (_launch (some 3) false (iters k).launchEnv rs zs
                    (iters k).launchFuel).state.blockedZones)
              refine ⟨Finset.Subset.trans ?_ ih1, Finset.Subset.trans ?_ ih2⟩
              · rw [hR]
              · rw [hZ]; exact subset_regetBlockZone _ _
            | false =>
              simp only [recoverLoopF_noneRaise iters h k n rs zs tc ht hl]
              refine ⟨?_, ?_⟩
              · rw [hR]
              · rw [hZ]; exact subset_regetBlockZone _ _
        | raisedSignal =>
          simp only [recoverLoopF_signal rtu iters h k n rs zs tc ht hl]
          rw [hR, hZ]
          exact ⟨Finset.Subset.refl _, Finset.Subset.refl _⟩
        | raisedResourcesUnavailable =>
          simp only [recoverLoopF_rue rtu iters h k n rs zs tc ht hl]
          rw [hR, hZ]
          exact ⟨Finset.Subset.refl _, Finset.Subset.refl _⟩
        | outOfFuel =>
          simp only [recoverLoopF_fuel rtu iters h k n rs zs tc ht hl]
          rw [hR, hZ]
          exact ⟨Finset.Subset.refl _, Finset.Subset.refl _⟩

example : (_launch (some 3) true failEnv ∅ ∅ 5).result = .raisedResourcesUnavailable := by decide
example : (_launch (some 3) false failEnv ∅ ∅ 5).result = .returned none := by decide
example : (_launch (some 3) true successEnv ∅ ∅ 1).result = .returned (some 42) := by decide
example : backoffSleeps (_launch (some 3) false failEnv ∅ ∅ 5).trace = [60, 120] := by decide

/-! ### Claim C1 -/

/-- C1 counterexample: in default mode (max_retry = 3, raise_on_failure =
true), when provisioning succeeds and every poll of the inner loop sees a
healthy UP cluster with the job still pending, the polling loop exhausts
MAX_JOB_CHECKING_RETRY and `_launch` returns null instead of continuing the
outer loop — so a null result IS returned in default mode. -/
theorem C1_counterexample :
    (_launch (some 3) true exhaustEnv ∅ ∅ 1).result = .returned none := by decide

/-- C1 (amended): in default mode, a `return` of `_launch` happens only on
an attempt whose provisioning succeeded (never from a provisioning
failure, which raises); a non-null timestamp is returned only when some
poll observed the cluster UP and a known job status with that timestamp;
but a null value is returned exactly when the polling loop exhausted
MAX_JOB_CHECKING_RETRY without success or failure signal — the outer loop
does not continue in that case. -/
theorem C1_launch_default_mode (m : Nat) (env : Nat → AttemptEnv) (i fuel : Nat)
    (s : LaunchState) (v : Option Nat)
    (h : (launchAux (some m) true env i fuel s).result = .returned v) :
    ∃ k, (env k).signalRaised = false ∧ (env k).launchOutcome = .ok () ∧
      ((v = none ∧ pollAux (env k).polls 0 MAX_JOB_CHECKING_RETRY = .exhausted) ∨
        ∃ t, v = some t ∧ ∃ j, ((env k).polls j).refresh = .ok ClusterStatus.UP ∧
          (∃ st, ((env k).polls j).jobStatus = .ok (some st)) ∧
          ((env k).polls j).timestamp = .ok t) := by
  obtain ⟨k, hs, ho, hcase⟩ := launchAux_returned (some m) env fuel i s v h
  refine ⟨k, hs, ho, ?_⟩
  rcases hcase with ⟨hv, hp⟩ | ⟨t, hv, hp⟩
  · exact Or.inl ⟨hv, hp⟩
  · obtain ⟨j, hj⟩ := pollAux_success (env k).polls MAX_JOB_CHECKING_RETRY 0 t hp
    exact Or.inr ⟨t, hv, j, hj⟩

/-- C1 witness: the amended theorem applied to the concrete poll-exhaustion
run. -/
theorem C1_witness :
    ∃ k, (exhaustEnv k).signalRaised = false ∧ (exhaustEnv k).launchOutcome = .ok () ∧
      (((none : Option Nat) = none ∧
          pollAux (exhaustEnv k).polls 0 MAX_JOB_CHECKING_RETRY = .exhausted) ∨
        ∃ t, (none : Option Nat) = some t ∧
          ∃ j, ((exhaustEnv k).polls j).refresh = .ok ClusterStatus.UP ∧
            (∃ st, ((exhaustEnv k).polls j).jobStatus = .ok (some st)) ∧
            ((exhaustEnv k).polls j).timestamp = .ok t) :=
  C1_launch_default_mode 3 exhaustEnv 0 1 emptyState none (by decide)

/-! ### Claim C2 -/

/-- C2 counterexample: with max_retry = 3, when provisioning succeeds on
every attempt and the first poll's refresh always raises (needs relaunch),
the loop runs 10 attempts within fuel 10 and is still running: the attempt
count exceeds max_retry and `_launch` has not terminated. -/
theorem C2_counterexample :
    (launchAux (some 3) true relaunchEnv 0 10 emptyState).result = .outOfFuel ∧
      (launchAux (some 3) true relaunchEnv 0 10 emptyState).state.retryCnt = 10 := by
  constructor
  · decide
  · decide

/-- C2 (amended): "needs relaunch" re-entries increment the attempt
counter, but that counter is only compared against max_retry inside the
provisioning-failure handler; there is no check at the top of the loop, so
when provisioning succeeds on every attempt and polling always marks
"needs relaunch", `_launch` with a bounded max_retry never terminates (for
every fuel the loop is still running, the attempt count having grown past
any bound). -/
theorem C2_relaunch_unbounded (mr : Option Nat) (rof : Bool) (env : Nat → AttemptEnv)
    (hall : ∀ k, (env k).signalRaised = false ∧ (env k).launchOutcome = .ok () ∧
      pollAux (env k).polls 0 MAX_JOB_CHECKING_RETRY = .retryLaunch)
    (fuel i : Nat) (s : LaunchState) :
    (launchAux mr rof env i fuel s).result = .outOfFuel ∧
      (launchAux mr rof env i fuel s).state.retryCnt = s.retryCnt + fuel :=
  launchAux_relaunch_diverges mr rof env hall fuel i s

/-- C2 witness: the amended theorem applied to the concrete
always-needs-relaunch run. -/
theorem C2_witness :
    (launchAux (some 3) true relaunchEnv 0 7 emptyState).result = .outOfFuel ∧
      (launchAux (some 3) true relaunchEnv 0 7 emptyState).state.retryCnt = 0 + 7 :=
  C2_relaunch_unbounded (some 3) true relaunchEnv
    (fun _ => ⟨rfl, rfl, rfl⟩) 7 0 emptyState

/-! ### Claim C3 -/

/-- C3: on a provisioning failure, when max_retry is set and the attempt
count has reached it, `_launch` raises ResourcesUnavailableError in default
mode and returns null when raise_on_failure is false; when max_retry is
null, a run whose provisioning always fails never terminates the loop (it
is bounded only by the external cancellation signal), and each failed
attempt is followed by a sleep of the backoff's current gap before the
retry. -/
theorem C3_provisioning_failure (env : Nat → AttemptEnv) :
    (∀ m i fuel s e, (env i).signalRaised = false →
      (env i).launchOutcome = .error e → m ≤ s.retryCnt + 1 →
      ((launchAux (some m) true env i (fuel + 1) s).result =
          .raisedResourcesUnavailable ∧
        (launchAux (some m) false env i (fuel + 1) s).result = .returned none)) ∧
    ((∀ k, (env k).signalRaised = false ∧ ∃ e, (env k).launchOutcome = .error e) →
      ∀ rof fuel i s, (launchAux none rof env i fuel s).result = .outOfFuel) ∧
    (∀ rof i fuel s e, (env i).signalRaised = false →
      (env i).launchOutcome = .error e →
      ∃ tr2, (launchAux none rof env i (fuel + 1) s).trace =
        .signalCheck :: .provisionCall s.blockedRegions s.blockedZones ::
          .backoffSleep s.backoff.currentValue :: tr2) := by
  refine ⟨?_, ?_, ?_⟩
  · intro m i fuel s e hs ho hm
    have hm2 : hitMaxRetry (some m) (s.retryCnt + 1) = true := by
      simp [hitMaxRetry]; omega
    cases hex : e.exhausted with
    | true =>
      rw [launchAux_error_hitMax_exhausted (some m) true env i fuel s e hs ho hex hm2,
        launchAux_error_hitMax_exhausted (some m) false env i fuel s e hs ho hex hm2]
      exact ⟨rfl, rfl⟩
    | false =>
      rw [launchAux_error_hitMax_plain (some m) true env i fuel s e hs ho hex hm2,
        launchAux_error_hitMax_plain (some m) false env i fuel s e hs ho hex hm2]
      exact ⟨rfl, rfl⟩
  · intro hall rof fuel i s
    exact launchAux_allFail_diverges rof env hall fuel i s
  · intro rof i fuel s e hs ho
    cases hex : e.exhausted with
    | true =>
      rw [launchAux_error_retry_exhausted none rof env i fuel s e hs ho hex rfl]
      exact ⟨_, rfl⟩
    | false =>
      rw [launchAux_error_retry_plain none rof env i fuel s e hs ho hex rfl]
      exact ⟨_, rfl⟩

/-- C3 witness: the third failed attempt with max_retry = 3 raises in
default mode and returns null in caller-tolerant mode. -/
theorem C3_witness :
    (launchAux (some 3) true failEnv 0 3
        ⟨∅, ∅, Backoff.start RETRY_INIT_GAP_SECONDS, 2⟩).result =
      .raisedResourcesUnavailable ∧
    (launchAux (some 3) false failEnv 0 3
        ⟨∅, ∅, Backoff.start RETRY_INIT_GAP_SECONDS, 2⟩).result = .returned none :=
  (C3_provisioning_failure failEnv).1 3 0 2
    ⟨∅, ∅, Backoff.start RETRY_INIT_GAP_SECONDS, 2⟩ ⟨false⟩ rfl rfl (by decide)

/-! ### Claim C5 -/

/-- C5: the cancellation check runs before every provisioning attempt: a
raised signal at the current attempt makes `_launch` propagate it at once,
with that iteration contributing only the signal-check event — in
particular with the signal raised before the first attempt no provisioning
call is ever issued — and in every trace of `_launch` each provisioning
call is immediately preceded by a signal check. -/
theorem C5_signal_check_first (mr : Option Nat) (rof : Bool) (env : Nat → AttemptEnv) :
    (∀ i fuel s, (env i).signalRaised = true →
      launchAux mr rof env i (fuel + 1) s =
        ⟨.raisedSignal, ⟨s.blockedRegions, s.blockedZones, s.backoff, s.retryCnt + 1⟩,
          [.signalCheck]⟩) ∧
    (∀ fuel i s,
      checksPrecedeProvision false (launchAux mr rof env i fuel s).trace = true) :=
  ⟨fun i fuel s hs => launchAux_signal mr rof env i fuel s hs,
    launchAux_checks mr rof env⟩

/-- C5 witness: a signal raised before the first attempt yields exactly one
signal-check event and no provisioning call. -/
theorem C5_witness :
    launchAux (some 3) true signalEnv 0 1 emptyState =
      ⟨.raisedSignal, ⟨∅, ∅, Backoff.start RETRY_INIT_GAP_SECONDS, 1⟩,
        [.signalCheck]⟩ :=
  (C5_signal_check_first (some 3) true signalEnv).1 0 0 emptyState rfl

theorem _launch_firstProvision (mr : Option Nat) (rof : Bool) (env : Nat → AttemptEnv)
    (rs zs : Finset String) (fuel : Nat) :
    firstProvision (_launch mr rof env rs zs fuel).trace = none ∨
      firstProvision (_launch mr rof env rs zs fuel).trace = some (rs, zs) :=
  launchAux_firstProvision mr rof env fuel 0
    ⟨rs, zs, Backoff.start RETRY_INIT_GAP_SECONDS, 0⟩

theorem _launch_returned_firstProvision (mr : Option Nat) (rof : Bool)
    (env : Nat → AttemptEnv) (rs zs : Finset String) (fuel : Nat) (v : Option Nat)
    (h : (_launch mr rof env rs zs fuel).result = .returned v) :
    firstProvision (_launch mr rof env rs zs fuel).trace = some (rs, zs) :=
  launchAux_returned_firstProvision mr rof env fuel 0
    ⟨rs, zs, Backoff.start RETRY_INIT_GAP_SECONDS, 0⟩ v h

theorem recoverLoopCR_firstProvision (rtu : Bool) (iters : Nat → RecoverIterEnv)
    (k fuel : Nat) (rs zs : Finset String) (p : Finset String × Finset String)
    (h : firstProvision (CrossRegion.recoverLoop rtu iters k rs zs fuel).trace = some p) :
    p = (rs, zs) := by
  cases fuel with
  | zero => rw [recoverLoopCR_zero] at h; cases h
  | succ n =>
    rcases ht : terminate_cluster (iters k).terminateHandle (iters k).teardown 3 with
      ⟨tr, tc⟩
    cases tr with
    | error u =>
      cases u
      rw [recoverLoopCR_termFail rtu iters k n rs zs tc ht] at h
      cases h
    | ok u =>
      cases u
      cases hl : (_launch (some 3) false (iters k).launchEnv rs zs
          (iters k).launchFuel).result with
      | returned v =>
        cases v with
        | some t =>
          rw [recoverLoopCR_ok rtu iters k n rs zs tc t ht hl] at h
          rw [_launch_returned_firstProvision (some 3) false (iters k).launchEnv rs zs
            (iters k).launchFuel (some t) hl] at h
          cases h
          rfl
        | none =>
          have hfp := _launch_returned_firstProvision (some 3) false (iters k).launchEnv
            rs zs (iters k).launchFuel none hl
          cases rtu with
          | true =>
            rw [recoverLoopCR_noneRetry iters k n rs zs tc ht hl] at h
            rw [firstProvision_append_some _ _ (rs, zs)
              (firstProvision_append_some _ _ (rs, zs) hfp)] at h
            cases h
            rfl
          | false =>
            rw [recoverLoopCR_noneRaise iters k n rs zs tc ht hl] at h
            rw [hfp] at h
            cases h
            rfl
      | raisedSignal =>
        rw [recoverLoopCR_signal rtu iters k n rs zs tc ht hl] at h
        rcases _launch_firstProvision (some 3) false (iters k).launchEnv rs zs
            (iters k).launchFuel with hn | hs2
        · rw [hn] at h; cases h
        · rw [hs2] at h; cases h; rfl
      | raisedResourcesUnavailable =>
        rw [recoverLoopCR_rue rtu iters k n rs zs tc ht hl] at h
        rcases _launch_firstProvision (some 3) false (iters k).launchEnv rs zs
            (iters k).launchFuel with hn | hs2
        · rw [hn] at h; cases h
        · rw [hs2] at h; cases h; rfl
      | outOfFuel =>
        rw [recoverLoopCR_fuel rtu iters k n rs zs tc ht hl] at h
        rcases _launch_firstProvision (some 3) false (iters k).launchEnv rs zs
            (iters k).launchFuel with hn | hs2
        · rw [hn] at h; cases h
        · rw [hs2] at h; cases h; rfl

/-! ### Claim C4 -/

/-- C4: within one executor, `_launch` leaves both blocklists unchanged
unless a provisioning failure indicated total exhaustion, in which case
both are reset to empty; and, absent any exhaustion signal, both recover
loops only grow the blocklists (the incoming sets are contained in the
outgoing ones); no other event removes any element. -/
theorem C4_blocklist_monotone (mr : Option Nat) (rof : Bool) (env : Nat → AttemptEnv)
    (iters : Nat → RecoverIterEnv) :
    (∀ fuel i s,
      ((launchAux mr rof env i fuel s).state.blockedRegions = s.blockedRegions ∧
        (launchAux mr rof env i fuel s).state.blockedZones = s.blockedZones) ∨
      ((launchAux mr rof env i fuel s).state.blockedRegions = ∅ ∧
        (launchAux mr rof env i fuel s).state.blockedZones = ∅ ∧
        ∃ k e, (env k).launchOutcome = .error e ∧ e.exhausted = true)) ∧
    ((∀ k2, noExhaust (iters k2).launchEnv) →
      ∀ rtu c h rs zs fuel,
        rs ⊆ (FailoverStrategyExecutor.recover rtu (some h) c iters
            rs zs fuel).blockedRegions ∧
        zs ⊆ (FailoverStrategyExecutor.recover rtu (some h) c iters
            rs zs fuel).blockedZones) ∧
    ((∀ k2, noExhaust (iters k2).launchEnv) →
      ∀ rtu flag c h rs zs fuel,
        rs ⊆ (CrossRegion.recover rtu flag (some h) c iters rs zs fuel).blockedRegions ∧
        zs ⊆ (CrossRegion.recover rtu flag (some h) c iters rs zs fuel).blockedZones) := by
  refine ⟨launchAux_sets mr rof env, ?_, ?_⟩
  · intro hne rtu c h rs zs fuel
    have m := recoverLoopF_mono rtu iters hne fuel (some h) 0 rs
      (insert h.launched_resources.zone zs)
    exact ⟨m.1, Finset.Subset.trans (Finset.subset_insert _ _) m.2⟩
  · intro hne rtu flag c h rs zs fuel
    have m := recoverLoopCR_mono rtu iters hne fuel 0
      (if flag then insert h.launched_resources.region rs else rs)
      (insert h.launched_resources.zone zs)
    refine ⟨Finset.Subset.trans ?_ m.1,
      Finset.Subset.trans (Finset.subset_insert _ _) m.2⟩
    cases flag with
    | true => exact Finset.subset_insert _ _
    | false => exact Finset.Subset.refl _

/-- C4 witness: a concrete recover run with non-exhaustion provisioning
failures only grows the (empty) blocklists. -/
theorem C4_witness :
    (∅ : Finset String) ⊆ (FailoverStrategyExecutor.recover true (some handleA) false
        failIters ∅ ∅ 2).blockedRegions ∧
    (∅ : Finset String) ⊆ (FailoverStrategyExecutor.recover true (some handleA) false
        failIters ∅ ∅ 2).blockedZones :=
  (C4_blocklist_monotone (some 3) false failEnv failIters).2.1
    (fun _ _ _ h => by cases h; rfl) true false handleA ∅ ∅ 2

/-! ### Claim C6 -/

/-- C6: terminate_cluster with no registered handle is a no-op success that
never calls teardown (so a second call after a successful teardown cannot
error); with a handle, teardown is retried until the first success (k
failures then success make k+1 calls) and, when all max_retry attempts
fail, a fatal RuntimeError is raised after exactly max_retry teardown
calls. -/
theorem C6_terminate_cluster (h : Handle) (teardown : Nat → Bool) (m : Nat) :
    (∀ (td2 : Nat → Bool) (m2 : Nat), terminate_cluster none td2 m2 = (.ok (), 0)) ∧
    (∀ k, k < m → (∀ j, j < k → teardown j = false) → teardown k = true →
      terminate_cluster (some h) teardown m = (.ok (), k + 1)) ∧
    (1 ≤ m → (∀ j, j < m → teardown j = false) →
      terminate_cluster (some h) teardown m = (.error (), m)) := by
  refine ⟨fun td2 m2 => rfl, ?_, ?_⟩
  · intro k hk hfail hsucc
    have := terminateAux_success teardown m k 0 (by omega)
      (fun j hj1 hj2 => hfail j (by omega))
      (by rw [Nat.zero_add]; exact hsucc)
    rw [Nat.zero_add] at this
    exact this
  · intro hm hfail
    exact terminateAux_allFail teardown m (m - 0) 0 rfl (by omega) hfail

/-- C6 witness: no handle is a no-op; one failure then success terminates
after two calls; three failures raise after three calls. -/
theorem C6_witness :
    terminate_cluster none (fun _ => false) 3 = (.ok (), 0) ∧
    terminate_cluster (some handleA) (fun n => decide (n = 1)) 3 = (.ok (), 2) ∧
    terminate_cluster (some handleA) (fun _ => false) 3 = (.error (), 3) :=
  ⟨(C6_terminate_cluster handleA (fun _ => false) 3).1 (fun _ => false) 3,
    (C6_terminate_cluster handleA (fun n => decide (n = 1)) 3).2.1 1 (by decide)
      (fun j hj => by simp only [decide_eq_false_iff_not]; omega) (by decide),
    (C6_terminate_cluster handleA (fun _ => false) 3).2.2 (by decide)
      (fun j _ => rfl)⟩

/-! ### Claim C7 -/

/-- C7: after a preemption the CrossRegion recover blocks the preempted
zone, and additionally blocks the whole region exactly when the
_CROSS_REGION mode flag is set: whatever blocklists the first provisioning
attempt of the recover call receives, the zone set contains the handle's
zone; with the flag set the region set contains the handle's region, and
with the flag unset the region set is exactly the incoming one. -/
theorem C7_crossregion_blocks_region (rtu flag c : Bool) (h : Handle)
    (iters : Nat → RecoverIterEnv) (rs zs : Finset String) (fuel : Nat)
    (p : Finset String × Finset String)
    (hfp : firstProvision
      (CrossRegion.recover rtu flag (some h) c iters rs zs fuel).trace = some p) :
    h.launched_resources.zone ∈ p.2 ∧
      (flag = true → h.launched_resources.region ∈ p.1) ∧
      (flag = false → p.1 = rs) := by
  have hp := recoverLoopCR_firstProvision rtu iters 0 fuel
    (if flag then insert h.launched_resources.region rs else rs)
    (insert h.launched_resources.zone zs) p hfp
  rw [hp]
  refine ⟨Finset.mem_insert_self _ _, fun hf => ?_, fun hf => ?_⟩
  · rw [hf]
    simp only [if_true]
    exact Finset.mem_insert_self _ _
  · rw [hf]
    simp

/-- C7 witness: with the flag set, a recover from regionR/zoneZ hands the
first provisioning attempt a blocklist containing both. -/
theorem C7_witness :
    handleA.launched_resources.zone ∈
        ((insert "regionR" (∅ : Finset String), insert "zoneZ" (∅ : Finset String)) :
          Finset String × Finset String).2 ∧
      (true = true → handleA.launched_resources.region ∈
        ((insert "regionR" (∅ : Finset String), insert "zoneZ" (∅ : Finset String)) :
          Finset String × Finset String).1) ∧
      (true = false → ((insert "regionR" (∅ : Finset String),
          insert "zoneZ" (∅ : Finset String)) :
          Finset String × Finset String).1 = (∅ : Finset String)) :=
  C7_crossregion_blocks_region false true false handleA succIters ∅ ∅ 1
    (insert "regionR" ∅, insert "zoneZ" ∅) (by decide)

/-! ### Claim C8 -/

/-- C8: the factory requires exactly one resource spec with a declared
recovery-policy name: in that case the task's resources are replaced by a
copy with the policy field cleared and the registered strategy is
returned; a resource count other than one, or a missing policy name, is an
assertion failure and no strategy is constructed. -/
theorem C8_make (r : Resources) (task : Task) :
    (∀ nm tag, r.spot_recovery = some nm → SPOT_STRATEGIES.lookup nm = some tag →
      make ⟨[r]⟩ = .ok (⟨[{ r with spot_recovery := none }]⟩, tag)) ∧
    (task.resources.length ≠ 1 → make task = .error .assertionError) ∧
    (r.spot_recovery = none → make ⟨[r]⟩ = .error .assertionError) := by
  refine ⟨?_, ?_, ?_⟩
  · intro nm tag hnm hlk
    simp [make, hnm, hlk]
  · intro hlen
    match htr : task.resources with
    | [] => simp [make, htr]
    | [r1] => rw [htr] at hlen; simp at hlen
    | r1 :: r2 :: rest => simp [make, htr]
  · intro hnone
    simp [make, hnone]

/-- C8 witness: a single spec declaring FAILOVER yields the registered
strategy with the policy field cleared; two specs or a missing name fail
the contract. -/
theorem C8_witness :
    make ⟨[resourceA]⟩ =
      .ok (⟨[{ resourceA with spot_recovery := none }]⟩, .FAILOVER) ∧
    make ⟨[resourceA, resourceA]⟩ = .error .assertionError ∧
    make ⟨[{ resourceA with spot_recovery := none }]⟩ = .error .assertionError :=
  ⟨(C8_make resourceA ⟨[]⟩).1 "FAILOVER" .FAILOVER rfl (by decide),
    (C8_make resourceA ⟨[resourceA, resourceA]⟩).2.1 (by decide),
    (C8_make { resourceA with spot_recovery := none } ⟨[]⟩).2.2 rfl⟩

/-! ### Claim C9 -/

/-- C9 counterexample: within a single recover() call (no executor
construction in between), each inner `_launch` restarts the backoff at the
base interval: the backoff gaps drawn are 60, 120, 60, 120 — not a single
monotonically non-decreasing progression for the episode. -/
theorem C9_counterexample :
    backoffSleeps (FailoverStrategyExecutor.recover true (some handleA) false failIters
        ∅ ∅ 2).trace = [60, 120, 60, 120] ∧
      ¬ List.Chain' (· ≤ ·) [60, 120, 60, 120] := by
  constructor
  · decide
  · simp [List.chain'_cons]

/-- C9 (amended): the backoff progression is reset at each `_launch`
invocation, not only at executor construction: every `_launch` call draws
its backoff gaps as the doubling progression that starts afresh at
RETRY_INIT_GAP_SECONDS, and within that single call the gaps are
monotonically non-decreasing. -/
theorem C9_backoff_per_launch (mr : Option Nat) (rof : Bool) (env : Nat → AttemptEnv)
    (rs zs : Finset String) (fuel : Nat) :
    ∃ n, backoffSleeps (_launch mr rof env rs zs fuel).trace =
        geomGaps RETRY_INIT_GAP_SECONDS n ∧
      List.Chain' (· ≤ ·) (backoffSleeps (_launch mr rof env rs zs fuel).trace) := by
  obtain ⟨n, hn⟩ := launchAux_gaps mr rof env fuel 0
    ⟨rs, zs, Backoff.start RETRY_INIT_GAP_SECONDS, 0⟩
  refine ⟨n, hn, ?_⟩
  show List.Chain' (· ≤ ·) (backoffSleeps (launchAux mr rof env 0 fuel
    ⟨rs, zs, Backoff.start RETRY_INIT_GAP_SECONDS, 0⟩).trace)
  rw [hn]
  exact geomGaps_chain n _

/-! ### Claim C10 -/

/-- C10: a null cluster handle makes both recover implementations fail with
an unhandled null dereference (reading the launched zone), before any
blocklist update or provisioning attempt — not a no-op and not a
ResourcesUnavailableError. -/
theorem C10_recover_null_handle (rtu flag c : Bool) (iters : Nat → RecoverIterEnv)
    (rs zs : Finset String) (fuel : Nat) :
    FailoverStrategyExecutor.recover rtu none c iters rs zs fuel =
      ⟨.nullDeref, rs, zs, []⟩ ∧
    CrossRegion.recover rtu flag none c iters rs zs fuel =
      ⟨.nullDeref, rs, zs, []⟩ :=
  ⟨rfl, rfl⟩

end SpotRecovery
